import Mathlib

/-!
Verification development for the RDS cluster / cluster-instance modules
(library/rds_cluster.py, library/rds_cluster_instance.py).

The Python sources are shallowly embedded: the attribute dictionaries become
association lists over a value type, the boto3 client becomes an explicit
gateway record of pre-determined responses (one per distinct API call the
function can make), and the blocking poll loop becomes a fuel-indexed
recursion over discrete time in which each sleep advances the clock by
5 seconds.  Errors raised by the client are carried as their error-code
string; module.fail_json / module.exit_json become terminal outcome values.
-/

/-- Attribute values appearing in API argument dictionaries. -/
inductive Val where
  | str : String → Val
  | int : Int → Val
  | bool : Bool → Val
  | list : List String → Val
  | tags : List (String × String) → Val
deriving DecidableEq

/-- Python dict lookup on an association list (first binding wins; keys are unique
in all dictionaries the modules build). -/
def dlookup (k : String) : List (String × Val) → Option Val
  | [] => none
  | kv :: rest => if kv.1 = k then some kv.2 else dlookup k rest

/-- Python dict assignment: replace an existing binding or append a new one. -/
def dictSet (l : List (String × Val)) (k : String) (v : Val) : List (String × Val) :=
  match l with
  | [] => [(k, v)]
  | kv :: rest => if kv.1 = k then (k, v) :: rest else kv :: dictSet rest k v

/-- One optional dict entry: the `if params[x] is not None: api_args[K] = ...`
pattern used to build the argument dictionaries. -/
def optEntry (k : String) : Option Val → List (String × Val)
  | some v => [(k, v)]
  | none => []

/-! ## Python string comparison and sorted()

Python 2 compares plain strings lexicographically; `charListLtb` is that
strict order on the character lists and is defined so that it evaluates
inside the kernel (Mathlib's String order instances are not kernel-reducible). -/

def charListLtb : List Char → List Char → Bool
  | [], [] => false
  | [], _ :: _ => true
  | _ :: _, [] => false
  | a :: as, b :: bs =>
    if a.val.toNat < b.val.toNat then true
    else if b.val.toNat < a.val.toNat then false
    else charListLtb as bs

def strLtb (a b : String) : Bool :=
  charListLtb a.data b.data

/-- The non-strict comparison Python sorting effectively uses (not b < a). -/
def pyLe (a b : String) : Prop :=
  strLtb b a = false

theorem charListLtb_irrefl : ∀ l : List Char, charListLtb l l = false
  | [] => rfl
  | a :: as => by
    simp only [charListLtb]
    rw [if_neg (Nat.lt_irrefl _), if_neg (Nat.lt_irrefl _)]
    exact charListLtb_irrefl as

theorem charListLtb_trans : ∀ {x y z : List Char}, charListLtb x y = true →
    charListLtb y z = true → charListLtb x z = true
  | [], [], _, hxy, _ => by simp [charListLtb] at hxy
  | [], _ :: _, [], _, hyz => by simp [charListLtb] at hyz
  | [], _ :: _, _ :: _, _, _ => by simp [charListLtb]
  | _ :: _, [], _, hxy, _ => by simp [charListLtb] at hxy
  | _ :: _, _ :: _, [], _, hyz => by simp [charListLtb] at hyz
  | a :: as, b :: bs, c :: cs, hxy, hyz => by
    simp only [charListLtb] at hxy hyz ⊢
    by_cases hab : a.val.toNat < b.val.toNat
    · by_cases hbc : b.val.toNat < c.val.toNat
      · rw [if_pos (Nat.lt_trans hab hbc)]
      · by_cases hcb : c.val.toNat < b.val.toNat
        · rw [if_neg hbc, if_pos hcb] at hyz
          exact absurd hyz (by simp)
        · rw [if_pos (show a.val.toNat < c.val.toNat by omega)]
    · by_cases hba : b.val.toNat < a.val.toNat
      · rw [if_neg hab, if_pos hba] at hxy
        exact absurd hxy (by simp)
      · rw [if_neg hab, if_neg hba] at hxy
        by_cases hbc : b.val.toNat < c.val.toNat
        · rw [if_pos (show a.val.toNat < c.val.toNat by omega)]
        · by_cases hcb : c.val.toNat < b.val.toNat
          · rw [if_neg hbc, if_pos hcb] at hyz
            exact absurd hyz (by simp)
          · rw [if_neg hbc, if_neg hcb] at hyz
            rw [if_neg (show ¬ a.val.toNat < c.val.toNat by omega),
                if_neg (show ¬ c.val.toNat < a.val.toNat by omega)]
            exact charListLtb_trans hxy hyz

theorem charListLtb_conn : ∀ {x y : List Char}, charListLtb x y = false →
    charListLtb y x = false → x = y
  | [], [], _, _ => rfl
  | [], _ :: _, hxy, _ => by simp [charListLtb] at hxy
  | _ :: _, [], _, hyx => by simp [charListLtb] at hyx
  | a :: as, b :: bs, hxy, hyx => by
    simp only [charListLtb] at hxy hyx
    by_cases hab : a.val.toNat < b.val.toNat
    · rw [if_pos hab] at hxy
      exact absurd hxy (by simp)
    · by_cases hba : b.val.toNat < a.val.toNat
      · rw [if_pos hba] at hyx
        exact absurd hyx (by simp)
      · rw [if_neg hab, if_neg hba] at hxy
        rw [if_neg hba, if_neg hab] at hyx
        have heads : a = b := Char.ext (UInt32.toNat.inj (by omega))
        rw [heads, charListLtb_conn hxy hyx]

theorem charListLtb_asymm {x y : List Char} (h : charListLtb x y = true) :
    charListLtb y x = false := by
  by_contra h2
  have h2' : charListLtb y x = true := by
    revert h2
    cases charListLtb y x <;> simp
  have h3 := charListLtb_trans h h2'
  rw [charListLtb_irrefl] at h3
  exact Bool.false_ne_true h3

theorem string_data_eq {a b : String} (h : a.data = b.data) : a = b := by
  cases a
  cases b
  exact congrArg String.mk h

theorem strLtb_trans {x y z : String} (h1 : strLtb x y = true)
    (h2 : strLtb y z = true) : strLtb x z = true :=
  charListLtb_trans h1 h2

theorem strLtb_conn {x y : String} (h1 : strLtb x y = false)
    (h2 : strLtb y x = false) : x = y :=
  string_data_eq (charListLtb_conn h1 h2)

theorem strLtb_asymm {x y : String} (h : strLtb x y = true) :
    strLtb y x = false :=
  charListLtb_asymm h

instance : DecidableRel pyLe :=
  fun a b => instDecidableEqBool (strLtb b a) false

instance : IsTotal String pyLe :=
  ⟨fun a b => by
    unfold pyLe
    rcases hba : strLtb b a with _ | _
    · exact Or.inl rfl
    · exact Or.inr (strLtb_asymm hba)⟩

instance : IsTrans String pyLe :=
  ⟨fun a b c hab hbc => by
    unfold pyLe at hab hbc ⊢
    by_contra hca
    have hca' : strLtb c a = true := by
      revert hca
      cases strLtb c a <;> simp
    rcases hbc2 : strLtb b c with _ | _
    · have hbceq : b = c := strLtb_conn hbc2 hbc
      rw [hbceq] at hab
      rw [hab] at hca'
      exact Bool.false_ne_true hca'
    · have h3 := strLtb_trans hbc2 hca'
      rw [hab] at h3
      exact Bool.false_ne_true h3⟩

instance : IsAntisymm String pyLe :=
  ⟨fun a b hab hba => strLtb_conn hba hab⟩

/-- Python sorted() on a list of strings: any sorting algorithm yields the
same result for a total order, so insertion sort stands in for timsort. -/
def pysorted (l : List String) : List String :=
  List.insertionSort pyLe l

theorem pysorted_perm (l : List String) : List.Perm (pysorted l) l :=
  List.perm_insertionSort _ l

theorem pysorted_sorted (l : List String) : List.Sorted pyLe (pysorted l) :=
  List.sorted_insertionSort _ l

/-- sorted(a) == sorted(b) in Python is exactly multiset equality of the lists. -/
theorem pysorted_eq_iff (l₁ l₂ : List String) :
    pysorted l₁ = pysorted l₂ ↔ (l₁ : Multiset String) = (l₂ : Multiset String) := by
  constructor
  · intro h
    rw [Multiset.coe_eq_coe]
    exact (pysorted_perm l₁).symm.trans (h ▸ pysorted_perm l₂)
  · intro h
    rw [Multiset.coe_eq_coe] at h
    exact List.eq_of_perm_of_sorted
      ((pysorted_perm l₁).trans (h.trans (pysorted_perm l₂).symm))
      (pysorted_sorted l₁) (pysorted_sorted l₂)
/-! ## rds_cluster.py -/

/-- Module parameters of rds_cluster.py (the fields of module_args in main()).
cluster_id is required, hence not optional; engine and subnet_group keep the
source's is-not-None guards and are therefore Options here, although main()
supplies a default for engine and requires subnet_group.  tags is carried in
its Python iteration order (the order `iteritems()` yields). -/
structure ClusterParams where
  availability_zones : Option (List String)
  cluster_id : String
  database_name : Option String
  engine : Option String
  engine_version : Option String
  master_username : Option String
  master_password : Option String
  option_group : Option String
  port : Option Int
  snapshot_arn : Option String
  subnet_group : Option String
  tags : Option (List (String × String))
  vpc_security_group_ids : Option (List String)
  wait : Bool
  wait_timeout : Nat
deriving DecidableEq

/-- A cluster as returned by describe_db_clusters.  `attrs` is the response
mapping restricted to the generically-compared keys; the two specially
accessed fields (VpcSecurityGroups, flattened to its VpcSecurityGroupId
entries, and Status) are separate fields. -/
structure Cluster where
  attrs : List (String × Val)
  vpcSecurityGroups : List String
  status : String
deriving DecidableEq

/-- api_args construction of create_cluster (lines 137-151), in source order. -/
def clusterApiArgs (p : ClusterParams) : List (String × Val) :=
  optEntry "AvailabilityZones" (p.availability_zones.map .list) ++
  optEntry "EngineVersion" (p.engine_version.map .str) ++
  optEntry "Port" (p.port.map .int) ++
  optEntry "DatabaseName" (p.database_name.map .str) ++
  optEntry "OptionGroupName" (p.option_group.map .str) ++
  optEntry "VpcSecurityGroupIds" (p.vpc_security_group_ids.map .list) ++
  optEntry "Tags" (p.tags.map .tags)

/-- The VpcSecurityGroupIds comparison (line 164):
sorted current ids != sorted desired ids.  By construction of api_args this
key only ever maps to a Val.list; the source would raise on any other type,
which is unreachable. -/
def sgDiffers (cluster : Cluster) (val : Val) : Bool :=
  match val with
  | .list ids => decide (pysorted cluster.vpcSecurityGroups ≠ pysorted ids)
  | _ => true

/-- The modify_args computation of create_cluster (lines 161-167).
The source raises KeyError when a generically-compared key is absent from the
cluster mapping; theorems about the found branch therefore assume all api_args
keys are present (mirroring real describe responses). -/
def clusterModifyArgs (cluster : Cluster) (args : List (String × Val)) :
    List (String × Val) :=
  args.filter fun kv =>
    if kv.1 = "VpcSecurityGroupIds" then sgDiffers cluster kv.2
    else decide (dlookup kv.1 cluster.attrs ≠ some kv.2)

/-- Pre-determined gateway responses for one create_cluster invocation:
errors carry the boto error-code string. -/
structure ClusterGateway where
  describeResp : Except String (Option (List Cluster))
  modifyResp : Except String String
  restoreResp : Except String String
  createResp : Except String String

/-- Which mutating API calls create_cluster issued, and with what arguments. -/
structure ClusterCalls where
  modifyCall : Option (String × List (String × Val))
  restoreCall : Option (List (String × Val))
  createCall : Option (List (String × Val))
deriving DecidableEq

def noClusterCalls : ClusterCalls := ⟨none, none, none⟩

/-- The result variable of create_cluster: either a raw gateway response or
dict(DBCluster=cluster), the fetched cluster returned verbatim. -/
inductive ClusterResultVal where
  | api : String → ClusterResultVal
  | existing : Cluster → ClusterResultVal
deriving DecidableEq

/-- Outcome of create_cluster up to (not including) the wait loop:
failJson carries the message and the api_args attached to it (none when the
source calls fail_json without api_args); ok carries the result value, the
effective wait_timeout after the sentinel-zero substitution, the value of the
check_cluster variable (none = never assigned), and the calls made. -/
inductive ClusterPhase1 where
  | failJson : String → Option (List (String × Val)) → ClusterCalls → ClusterPhase1
  | ok : ClusterResultVal → Nat → Option (Option (List Cluster)) → ClusterCalls →
      ClusterPhase1
deriving DecidableEq

def ClusterPhase1.calls : ClusterPhase1 → ClusterCalls
  | .failJson _ _ c => c
  | .ok _ _ _ c => c

def ClusterPhase1.resultVal : ClusterPhase1 → Option ClusterResultVal
  | .failJson _ _ _ => none
  | .ok r _ _ _ => some r

def ClusterPhase1.waitSecs : ClusterPhase1 → Option Nat
  | .failJson _ _ _ => none
  | .ok _ wt _ _ => some wt

/-- Lines 182-187: api_args extended with identifier, engine and subnet group.
cluster_id is a required module argument, so its is-not-None guard always
passes. -/
def clusterBaseArgs (p : ClusterParams) : List (String × Val) :=
  clusterApiArgs p ++
  [("DBClusterIdentifier", Val.str p.cluster_id)] ++
  optEntry "Engine" (p.engine.map .str) ++
  optEntry "DBSubnetGroupName" (p.subnet_group.map .str)

/-- Arguments of the restore_db_cluster_from_snapshot call (lines 191-193). -/
def clusterRestoreArgs (p : ClusterParams) (arn : String) : List (String × Val) :=
  clusterBaseArgs p ++ [("SnapshotIdentifier", Val.str arn)]

/-- Arguments of the create_db_cluster call (lines 199-203). -/
def clusterCreateArgs (p : ClusterParams) : List (String × Val) :=
  clusterBaseArgs p ++
  optEntry "MasterUsername" (p.master_username.map .str) ++
  optEntry "MasterUserPassword" (p.master_password.map .str)

/-- The create/restore branch of create_cluster (lines 182-208), entered from
the DBClusterNotFoundFault handler.  cv is the current value of the
check_cluster variable, calls0 the calls already made. -/
def clusterNotFoundBranch (p : ClusterParams) (gw : ClusterGateway)
    (cv : Option (Option (List Cluster))) (calls0 : ClusterCalls) : ClusterPhase1 :=
  match p.snapshot_arn with
  | some arn =>
    let args := clusterRestoreArgs p arn
    let calls := { calls0 with restoreCall := some args }
    match gw.restoreResp with
    | .ok r => .ok (.api r) (if p.wait_timeout = 0 then 3600 else p.wait_timeout) cv calls
    | .error e => .failJson e (some args) calls
  | none =>
    let args := clusterCreateArgs p
    let calls := { calls0 with createCall := some args }
    match gw.createResp with
    | .ok r => .ok (.api r) (if p.wait_timeout = 0 then 600 else p.wait_timeout) cv calls
    | .error e => .failJson e (some args) calls

/-- The except ClientError handler of create_cluster (lines 179-210): only the
code DBClusterNotFoundFault enters the create/restore branch; any other code
fails immediately with the attempted api_args. -/
def clusterExceptHandler (p : ClusterParams) (gw : ClusterGateway) (code : String)
    (cv : Option (Option (List Cluster))) (calls0 : ClusterCalls) : ClusterPhase1 :=
  if code = "DBClusterNotFoundFault" then clusterNotFoundBranch p gw cv calls0
  else .failJson code (some (clusterApiArgs p)) calls0

/-- create_cluster up to (not including) the wait loop (lines 135-210).
An error raised by modify_db_cluster propagates to the same except handler
as an error from the initial describe, exactly as in the source. -/
def clusterReconcile (p : ClusterParams) (gw : ClusterGateway) : ClusterPhase1 :=
  match gw.describeResp with
  | .error code => clusterExceptHandler p gw code none noClusterCalls
  | .ok resp =>
    match resp with
    | some [cluster] =>
      let modify_args := clusterModifyArgs cluster (clusterApiArgs p)
      if modify_args.isEmpty then
        .ok (.existing cluster) (if p.wait_timeout = 0 then 600 else p.wait_timeout)
          (some resp) noClusterCalls
      else
        let calls := { noClusterCalls with modifyCall := some (p.cluster_id, modify_args) }
        match gw.modifyResp with
        | .ok r =>
          .ok (.api r) (if p.wait_timeout = 0 then 600 else p.wait_timeout) (some resp) calls
        | .error code => clusterExceptHandler p gw code (some resp) calls
    | _ => .failJson "Failed to retrieve details for existing cluster" none noClusterCalls

/-! ## The convergence wait loop (lines 212-233 / 310-331)

Shared between the two modules up to the status key; `getStatus` abstracts
the status field access.  `fetch i` is the response of the i-th poll; time
starts at 0 and the absolute deadline is the wait_timeout value; each sleep(5)
advances the clock by 5.  `fuel` bounds the recursion and is always chosen
large enough (deadline + 1 iterations suffice since every iteration advances
time by 5); `fuelOut` is unreachable under that choice. -/

inductive WaitOutcome (R : Type) where
  | finished : WaitOutcome R
  | timedOut : Option R → WaitOutcome R
  | crashUnbound : WaitOutcome R
  | fuelOut : WaitOutcome R
deriving DecidableEq

/-- Readiness test of one poll (lines 217-220): a well-formed response whose
single resource's status lower-cases to "available". -/
def availResp {R : Type} (getStatus : R → String) :
    Except String (Option (List R)) → Bool
  | .ok (some [r]) => (getStatus r).toLower = "available"
  | _ => false

/-- Update of the check variable by one poll: assignment happens only when the
describe call returns (lines 217, 315); on an exception the variable keeps its
previous value. -/
def pollUpdate {R : Type} (cv : Option (Option (List R))) :
    Except String (Option (List R)) → Option (Option (List R))
  | .ok resp => some resp
  | .error _ => cv

/-- The report built on deadline expiry (lines 228-233): the last value of the
check variable if well-formed, none otherwise; if the variable was never
assigned (creation branch with every poll failing) the source raises
UnboundLocalError, modelled as crashUnbound. -/
def timeoutReport {R : Type} : Option (Option (List R)) → WaitOutcome R
  | none => .crashUnbound
  | some (some [r]) => .timedOut (some r)
  | some _ => .timedOut none

/-- The polling loop (lines 214-233).  Returns the outcome and the list of
times at which polls were issued. -/
def waitFrom {R : Type} (getStatus : R → String)
    (fetch : Nat → Except String (Option (List R))) (deadline : Nat) :
    Nat → Nat → Nat → Option (Option (List R)) → WaitOutcome R × List Nat
  | 0, _, _, _ => (.fuelOut, [])
  | fuel + 1, t, i, cv =>
    if t < deadline then
      let cv2 := pollUpdate cv (fetch i)
      if availResp getStatus (fetch i) then (.finished, [t])
      else
        match waitFrom getStatus fetch deadline fuel (t + 5) (i + 1) cv2 with
        | (res, ts) => (res, t :: ts)
    else (timeoutReport cv, [])

/-- Final outcome of a whole create_cluster invocation. -/
inductive ClusterOutcome where
  | failed : String → Option (List (String × Val)) → ClusterOutcome
  | failedTimeout : Option Cluster → ClusterOutcome
  | crashed : ClusterOutcome
  | exited : ClusterResultVal → ClusterOutcome
deriving DecidableEq

/-- create_cluster in full: reconcile, then wait when requested (lines 212-235).
The fuel wt + 1 always suffices for a deadline of wt. -/
def create_cluster (p : ClusterParams) (gw : ClusterGateway)
    (fetch : Nat → Except String (Option (List Cluster))) :
    ClusterOutcome × ClusterCalls × List Nat :=
  match clusterReconcile p gw with
  | .failJson m a calls => (.failed m a, calls, [])
  | .ok res wt cv calls =>
    if p.wait then
      match waitFrom Cluster.status fetch wt (wt + 1) 0 0 cv with
      | (.finished, ts) => (.exited res, calls, ts)
      | (.timedOut snap, ts) => (.failedTimeout snap, calls, ts)
      | (.crashUnbound, ts) => (.crashed, calls, ts)
      | (.fuelOut, ts) => (.crashed, calls, ts)
    else (.exited res, calls, [])

/-! ## rds_cluster_instance.py -/

/-- Module parameters of rds_cluster_instance.py (module_args of main()).
instance_id is required; apply_immediately, wait are booleans with defaults;
the remaining fields keep their is-not-None guards as Options.  tags carries
the dict in iteration order. -/
structure InstanceParams where
  apply_immediately : Bool
  auto_minor_version_upgrade : Option Bool
  availability_zone : Option String
  cloudwatch_logs_exports : Option (List String)
  cluster_id : Option String
  copy_tags_to_snapshot : Option Bool
  engine : Option String
  instance_id : String
  instance_type : Option String
  monitoring_interval : Option Int
  monitoring_role_arn : Option String
  multi_az : Option Bool
  option_group : Option String
  parameter_group : Option String
  performance_insights : Option Bool
  preferred_maintenance_window : Option String
  promotion_tier : Option Int
  publicly_accessible : Option Bool
  subnet_group : Option String
  tags : Option (List (String × String))
  wait : Bool
  wait_timeout : Nat
deriving DecidableEq

/-- A DB instance as returned by describe_db_instances.  `attrs` is the
response mapping for the generically-compared keys; the specially accessed
fields (DBParameterGroups flattened to its DBParameterGroupName entries,
PerformanceInsightsEnabled, DBInstanceArn, DBInstanceStatus) are separate
fields. -/
structure Instance where
  attrs : List (String × Val)
  dbParameterGroups : List String
  performanceInsightsEnabled : Bool
  arn : String
  status : String
deriving DecidableEq

/-- api_args construction of create_db_instance (lines 217-246), source order. -/
def instanceApiArgs (q : InstanceParams) : List (String × Val) :=
  optEntry "DBInstanceClass" (q.instance_type.map .str) ++
  optEntry "AvailabilityZone" (q.availability_zone.map .str) ++
  optEntry "PreferredMaintenanceWindow" (q.preferred_maintenance_window.map .str) ++
  optEntry "DBParameterGroupName" (q.parameter_group.map .str) ++
  optEntry "MultiAZ" (q.multi_az.map .bool) ++
  optEntry "AutoMinorVersionUpgrade" (q.auto_minor_version_upgrade.map .bool) ++
  optEntry "OptionGroupName" (q.option_group.map .str) ++
  optEntry "PubliclyAccessible" (q.publicly_accessible.map .bool) ++
  optEntry "CopyTagsToSnapshot" (q.copy_tags_to_snapshot.map .bool) ++
  optEntry "MonitoringInterval" (q.monitoring_interval.map .int) ++
  optEntry "MonitoringRoleArn" (q.monitoring_role_arn.map .str) ++
  optEntry "PromotionTier" (q.promotion_tier.map .int) ++
  optEntry "EnablePerformanceInsights" (q.performance_insights.map .bool) ++
  optEntry "EnableCloudwatchLogsExports" (q.cloudwatch_logs_exports.map .list)

/-- DBParameterGroupName comparison (line 263): the list of group names on the
instance compared against the one-element list [val].  A list of strings can
only equal [val] when val is a string. -/
def pgDiffers (inst : Instance) (val : Val) : Bool :=
  match val with
  | .str s => decide (inst.dbParameterGroups ≠ [s])
  | _ => true

/-- EnablePerformanceInsights comparison (line 266). -/
def piDiffers (inst : Instance) (val : Val) : Bool :=
  decide (Val.bool inst.performanceInsightsEnabled ≠ val)

/-- The modify_args computation of create_db_instance (lines 260-269): note the
generic branch includes any attribute whose key is absent from the instance
mapping (`opt not in instance`). -/
def instanceModifyArgs (inst : Instance) (args : List (String × Val)) :
    List (String × Val) :=
  args.filter fun kv =>
    if kv.1 = "DBParameterGroupName" then pgDiffers inst kv.2
    else if kv.1 = "EnablePerformanceInsights" then piDiffers inst kv.2
    else decide (dlookup kv.1 inst.attrs ≠ some kv.2)

/-- Pre-determined gateway responses for one create_db_instance invocation.
listTagsResp's payload is the TagList of the response, none when the response
has no TagList key. -/
structure InstanceGateway where
  describeResp : Except String (Option (List Instance))
  modifyResp : Except String String
  listTagsResp : Except String (Option (List (String × String)))
  removeTagsResp : Except String Unit
  addTagsResp : Except String Unit
  createResp : Except String String

/-- Which API calls create_db_instance issued, and with what arguments.
modifyCall carries (DBInstanceIdentifier, ApplyImmediately, modify_args);
removeTagsCall carries (ResourceName, TagKeys); addTagsCall (ResourceName, Tags). -/
structure InstanceCalls where
  modifyCall : Option (String × Bool × List (String × Val))
  removeTagsCall : Option (String × List String)
  addTagsCall : Option (String × List (String × String))
  createCall : Option (List (String × Val))
deriving DecidableEq

def noInstanceCalls : InstanceCalls := ⟨none, none, none, none⟩

/-- The result variable of create_db_instance. -/
inductive InstanceResultVal where
  | api : String → InstanceResultVal
  | existing : Instance → InstanceResultVal
deriving DecidableEq

/-- Outcome of create_db_instance up to (not including) the wait loop. -/
inductive InstancePhase1 where
  | failJson : String → Option (List (String × Val)) → InstanceCalls → InstancePhase1
  | ok : InstanceResultVal → Option (Option (List Instance)) → InstanceCalls →
      InstancePhase1
deriving DecidableEq

def InstancePhase1.calls : InstancePhase1 → InstanceCalls
  | .failJson _ _ c => c
  | .ok _ _ c => c

def InstancePhase1.resultVal : InstancePhase1 → Option InstanceResultVal
  | .failJson _ _ _ => none
  | .ok r _ _ => some r

/-- Arguments of the create_db_instance call (lines 288-297), built by mutating
the api_args dictionary current at the time the exception was caught. -/
def instanceCreateArgsFrom (q : InstanceParams) (args0 : List (String × Val)) :
    List (String × Val) :=
  let a := dictSet args0 "DBInstanceIdentifier" (.str q.instance_id)
  let a := match q.cluster_id with | some c => dictSet a "DBClusterIdentifier" (.str c) | none => a
  let a := match q.engine with | some e => dictSet a "Engine" (.str e) | none => a
  let a := match q.subnet_group with | some s => dictSet a "DBSubnetGroupName" (.str s) | none => a
  match q.tags with | some ts => dictSet a "Tags" (.tags ts) | none => a

/-- The create args when the not-found branch is entered straight from the
initial describe (api_args still the base dictionary). -/
def instanceCreateArgs (q : InstanceParams) : List (String × Val) :=
  instanceCreateArgsFrom q (instanceApiArgs q)

/-- The not-found branch of create_db_instance (lines 287-302). -/
def instanceNotFoundBranch (q : InstanceParams) (gw : InstanceGateway)
    (args0 : List (String × Val)) (cv : Option (Option (List Instance)))
    (calls0 : InstanceCalls) : InstancePhase1 :=
  let a := instanceCreateArgsFrom q args0
  let calls := { calls0 with createCall := some a }
  match gw.createResp with
  | .ok r => .ok (.api r) cv calls
  | .error e => .failJson e (some a) calls

/-- The except handler of create_db_instance (lines 286-308): only the code
DBInstanceNotFound enters the create branch; any other ClientError, and any
BotoServerError, fails immediately with the current api_args. -/
def instanceExceptHandler (q : InstanceParams) (gw : InstanceGateway) (code : String)
    (args0 : List (String × Val)) (cv : Option (Option (List Instance)))
    (calls0 : InstanceCalls) : InstancePhase1 :=
  if code = "DBInstanceNotFound" then instanceNotFoundBranch q gw args0 cv calls0
  else .failJson code (some args0) calls0

/-- The unconditional tag reconciliation of the found branch (lines 278-284):
list tags on the instance ARN; when the response has a TagList, remove every
current tag key and, when desired tags were given, set api_args['Tags'] and
re-add the full desired set.  Exceptions from any of the three calls propagate
to the same except handler as the initial describe. -/
def instanceTagPhase (q : InstanceParams) (gw : InstanceGateway)
    (args0 : List (String × Val)) (cv : Option (Option (List Instance)))
    (inst : Instance) (calls0 : InstanceCalls) (res : InstanceResultVal) :
    InstancePhase1 :=
  match gw.listTagsResp with
  | .error code => instanceExceptHandler q gw code args0 cv calls0
  | .ok none => .ok res cv calls0
  | .ok (some tl) =>
    let calls := { calls0 with removeTagsCall := some (inst.arn, tl.map Prod.fst) }
    match gw.removeTagsResp with
    | .error code => instanceExceptHandler q gw code args0 cv calls
    | .ok _ =>
      match q.tags with
      | none => .ok res cv calls
      | some ts =>
        let args := dictSet args0 "Tags" (.tags ts)
        let calls2 := { calls with addTagsCall := some (inst.arn, ts) }
        match gw.addTagsResp with
        | .error code => instanceExceptHandler q gw code args cv calls2
        | .ok _ => .ok res cv calls2

/-- create_db_instance up to (not including) the wait loop (lines 215-308). -/
def instanceReconcile (q : InstanceParams) (gw : InstanceGateway) : InstancePhase1 :=
  let args := instanceApiArgs q
  match gw.describeResp with
  | .error code => instanceExceptHandler q gw code args none noInstanceCalls
  | .ok resp =>
    match resp with
    | some [inst] =>
      let modify_args := instanceModifyArgs inst args
      if modify_args.isEmpty then
        instanceTagPhase q gw args (some resp) inst noInstanceCalls (.existing inst)
      else
        let calls := { noInstanceCalls with
          modifyCall := some (q.instance_id, q.apply_immediately, modify_args) }
        match gw.modifyResp with
        | .ok r => instanceTagPhase q gw args (some resp) inst calls (.api r)
        | .error code => instanceExceptHandler q gw code args (some resp) calls
    | _ =>
      .failJson "Failed to retrieve details for existing database instance" none
        noInstanceCalls

/-- Final outcome of a whole create_db_instance invocation. -/
inductive InstanceOutcome where
  | failed : String → Option (List (String × Val)) → InstanceOutcome
  | failedTimeout : Option Instance → InstanceOutcome
  | crashed : InstanceOutcome
  | exited : InstanceResultVal → InstanceOutcome
deriving DecidableEq

/-- create_db_instance in full: reconcile, then wait when requested
(lines 310-333).  The wait deadline is the wait_timeout parameter unchanged:
this module has no sentinel-zero substitution. -/
def create_db_instance (q : InstanceParams) (gw : InstanceGateway)
    (fetch : Nat → Except String (Option (List Instance))) :
    InstanceOutcome × InstanceCalls × List Nat :=
  match instanceReconcile q gw with
  | .failJson m a calls => (.failed m a, calls, [])
  | .ok res cv calls =>
    if q.wait then
      match waitFrom Instance.status fetch q.wait_timeout (q.wait_timeout + 1) 0 0 cv with
      | (.finished, ts) => (.exited res, calls, ts)
      | (.timedOut snap, ts) => (.failedTimeout snap, calls, ts)
      | (.crashUnbound, ts) => (.crashed, calls, ts)
      | (.fuelOut, ts) => (.crashed, calls, ts)
    else (.exited res, calls, [])

/-- Resolution of the instance module's wait_timeout argument in main()
(line 360): AnsibleModule substitutes the declared default 1200 only when the
parameter is omitted; a supplied value, including 0, is passed through. -/
def resolveInstanceWaitTimeout (supplied : Option Nat) : Nat :=
  supplied.getD 1200

/-! ## state=absent -/

inductive DeleteOutcome where
  | succeeded : DeleteOutcome
  | fatal : String → DeleteOutcome
deriving DecidableEq

/-- Modelled from the spec: terminate_cluster is invoked from main() for
state=absent (rds_cluster.py line 274) but is not defined anywhere in the
repository sources.  Spec section 4.2 step 5: issue a delete call for the
identifier; treat already-absent as success, any other gateway error as fatal.
The second component records the identifier the delete call was issued for. -/
def terminate_cluster (clusterId : String) (deleteResp : Except String Unit) :
    DeleteOutcome × String :=
  (match deleteResp with
   | .ok _ => .succeeded
   | .error code =>
     if code = "DBClusterNotFoundFault" then .succeeded else .fatal code,
   clusterId)

/-- Modelled from the spec: terminate_db_instance is invoked from main() for
state=absent (rds_cluster_instance.py line 382) but is not defined anywhere in
the repository sources.  Same contract as terminate_cluster with the
instance-specific not-found code. -/
def terminate_db_instance (instanceId : String) (deleteResp : Except String Unit) :
    DeleteOutcome × String :=
  (match deleteResp with
   | .ok _ => .succeeded
   | .error code =>
     if code = "DBInstanceNotFound" then .succeeded else .fatal code,
   instanceId)

/-- Dispatch outcome of main() for the cluster module. -/
inductive ClusterMainOutcome where
  | created : ClusterOutcome × ClusterCalls × List Nat → ClusterMainOutcome
  | deleted : DeleteOutcome × String → ClusterMainOutcome
  | noop : ClusterMainOutcome
deriving DecidableEq

/-- State dispatch of rds_cluster.py main() (lines 271-274). -/
def cluster_main (p : ClusterParams) (state : String) (gw : ClusterGateway)
    (fetch : Nat → Except String (Option (List Cluster)))
    (deleteResp : Except String Unit) : ClusterMainOutcome :=
  if state = "present" then .created (create_cluster p gw fetch)
  else if state = "absent" then .deleted (terminate_cluster p.cluster_id deleteResp)
  else .noop

/-- Dispatch outcome of main() for the instance module. -/
inductive InstanceMainOutcome where
  | created : InstanceOutcome × InstanceCalls × List Nat → InstanceMainOutcome
  | deleted : DeleteOutcome × String → InstanceMainOutcome
  | noop : InstanceMainOutcome
deriving DecidableEq

/-- State dispatch of rds_cluster_instance.py main() (lines 379-382). -/
def instance_main (q : InstanceParams) (state : String) (gw : InstanceGateway)
    (fetch : Nat → Except String (Option (List Instance)))
    (deleteResp : Except String Unit) : InstanceMainOutcome :=
  if state = "present" then .created (create_db_instance q gw fetch)
  else if state = "absent" then .deleted (terminate_db_instance q.instance_id deleteResp)
  else .noop

/-! ## Dictionary lemmas -/

theorem dlookup_nil (k : String) : dlookup k [] = none := rfl

theorem dlookup_cons_self (k : String) (v : Val) (rest : List (String × Val)) :
    dlookup k ((k, v) :: rest) = some v := by
  simp [dlookup]

theorem dlookup_cons_ne {k k₁ : String} (h : k ≠ k₁) (v : Val)
    (rest : List (String × Val)) : dlookup k ((k₁, v) :: rest) = dlookup k rest := by
  simp [dlookup, h.symm]

theorem dlookup_optEntry_self (k : String) (o : Option Val) :
    dlookup k (optEntry k o) = o := by
  cases o <;> simp [optEntry, dlookup]

theorem dlookup_optEntry_ne {k k₁ : String} (h : k ≠ k₁) (o : Option Val) :
    dlookup k (optEntry k₁ o) = none := by
  cases o <;> simp [optEntry, dlookup, h.symm]

theorem dlookup_append_of_none {k : String} {l₁ l₂ : List (String × Val)}
    (h : dlookup k l₁ = none) : dlookup k (l₁ ++ l₂) = dlookup k l₂ := by
  induction l₁ with
  | nil => rfl
  | cons kv rest ih =>
    by_cases hk : kv.1 = k
    · simp [dlookup, hk] at h
    · simp only [dlookup, hk, if_false, List.cons_append] at h ⊢
      exact ih h

theorem dlookup_append_of_some {k : String} {v : Val} {l₁ l₂ : List (String × Val)}
    (h : dlookup k l₁ = some v) : dlookup k (l₁ ++ l₂) = some v := by
  induction l₁ with
  | nil => simp [dlookup] at h
  | cons kv rest ih =>
    by_cases hk : kv.1 = k
    · simp only [dlookup, hk, if_true] at h ⊢
      simpa using h
    · simp only [dlookup, hk, if_false, List.cons_append] at h ⊢
      exact ih h

theorem dlookup_append_none {k : String} {l₁ l₂ : List (String × Val)}
    (h₁ : dlookup k l₁ = none) (h₂ : dlookup k l₂ = none) :
    dlookup k (l₁ ++ l₂) = none :=
  (dlookup_append_of_none h₁).trans h₂

theorem mem_optEntry_iff (kv : String × Val) (k : String) (o : Option Val) :
    kv ∈ optEntry k o ↔ kv.1 = k ∧ o = some kv.2 := by
  cases o with
  | none => simp [optEntry]
  | some v =>
    simp only [optEntry, List.mem_singleton, Option.some.injEq]
    constructor
    · intro h
      rw [h]
      exact ⟨rfl, rfl⟩
    · intro ⟨h1, h2⟩
      have : kv = (kv.1, kv.2) := rfl
      rw [this, h1, h2]

/-- Every key of clusterApiArgs is one of the seven attribute names. -/
theorem dlookup_clusterApiArgs_none (p : ClusterParams) {k : String}
    (h1 : k ≠ "AvailabilityZones") (h2 : k ≠ "EngineVersion") (h3 : k ≠ "Port")
    (h4 : k ≠ "DatabaseName") (h5 : k ≠ "OptionGroupName")
    (h6 : k ≠ "VpcSecurityGroupIds") (h7 : k ≠ "Tags") :
    dlookup k (clusterApiArgs p) = none := by
  unfold clusterApiArgs
  exact dlookup_append_none (dlookup_append_none (dlookup_append_none
    (dlookup_append_none (dlookup_append_none (dlookup_append_none
      (dlookup_optEntry_ne h1 _) (dlookup_optEntry_ne h2 _))
      (dlookup_optEntry_ne h3 _)) (dlookup_optEntry_ne h4 _))
      (dlookup_optEntry_ne h5 _)) (dlookup_optEntry_ne h6 _))
    (dlookup_optEntry_ne h7 _)

/-! ## Shared concrete fixtures -/

def pBase : ClusterParams :=
  { availability_zones := none, cluster_id := "c1", database_name := none,
    engine := none, engine_version := none, master_username := none,
    master_password := none, option_group := none, port := none,
    snapshot_arn := none, subnet_group := none, tags := none,
    vpc_security_group_ids := none, wait := false, wait_timeout := 0 }

def qBase : InstanceParams :=
  { apply_immediately := false, auto_minor_version_upgrade := none,
    availability_zone := none, cloudwatch_logs_exports := none,
    cluster_id := none, copy_tags_to_snapshot := none, engine := none,
    instance_id := "i1", instance_type := none, monitoring_interval := none,
    monitoring_role_arn := none, multi_az := none, option_group := none,
    parameter_group := none, performance_insights := none,
    preferred_maintenance_window := none, promotion_tier := none,
    publicly_accessible := none, subnet_group := none, tags := none,
    wait := false, wait_timeout := 0 }

def gwClusterOk : ClusterGateway :=
  { describeResp := .ok (some []), modifyResp := .ok "m", restoreResp := .ok "r",
    createResp := .ok "c" }

def gwInstanceOk : InstanceGateway :=
  { describeResp := .ok (some []), modifyResp := .ok "m", listTagsResp := .ok none,
    removeTagsResp := .ok (), addTagsResp := .ok (), createResp := .ok "c" }


/-- Membership in the cluster MutationSet, with the filter unfolded. -/
theorem mem_clusterModifyArgs_iff (cluster : Cluster) (args : List (String × Val))
    (opt : String) (val : Val) :
    (opt, val) ∈ clusterModifyArgs cluster args ↔
      (opt, val) ∈ args ∧
        (if opt = "VpcSecurityGroupIds" then sgDiffers cluster val
         else decide (dlookup opt cluster.attrs ≠ some val)) = true := by
  simp [clusterModifyArgs, List.mem_filter]

/-! ## C1: minimality of the MutationSet -/

/-- Spec-side comparison of the set-valued security-group attribute:
unordered collections of IDs. -/
def sgSetDiffers (cluster : Cluster) : Val → Prop
  | .list ids => (ids : Multiset String) ≠ (cluster.vpcSecurityGroups : Multiset String)
  | _ => True

/-- Spec-side per-attribute difference: security groups as unordered
collections, every other attribute by equality against the cluster's
current value. -/
def clusterAttrDiffers (cluster : Cluster) (opt : String) (val : Val) : Prop :=
  if opt = "VpcSecurityGroupIds" then sgSetDiffers cluster val
  else dlookup opt cluster.attrs ≠ some val

def pTagsAB : ClusterParams := { pBase with tags := some [("a", "1"), ("b", "2")] }

def cTagsBA : Cluster :=
  { attrs := [("Tags", Val.tags [("b", "2"), ("a", "1")])],
    vpcSecurityGroups := [], status := "available" }

/-- C1 counterexample: the claim says the MutationSet contains exactly the
attributes whose normalized values differ under the per-attribute rules, and
the spec normalizes tag maps to be compared as sets when diffing.  Here the
desired and current tag sets are equal (same multiset of pairs), yet the Tags
attribute is in the cluster MutationSet because the source compares the two
tag lists by order-sensitive list equality (line 166). -/
theorem cluster_tags_order_mutation :
    ("Tags", Val.tags [("a", "1"), ("b", "2")]) ∈
        clusterModifyArgs cTagsBA (clusterApiArgs pTagsAB) ∧
    (([("a", "1"), ("b", "2")] : List (String × String)) : Multiset (String × String)) =
      (([("b", "2"), ("a", "1")] : List (String × String)) : Multiset (String × String)) := by
  constructor
  · decide
  · decide

/-- C1 (amended): for pairs in which every managed attribute key is present on
the fetched cluster, the cluster MutationSet contains exactly the attributes
that differ, where security-group IDs compare as unordered multisets and every
other attribute — tag lists included — compares by direct order-sensitive
equality against the cluster's current value.  (The instance reconciler
additionally always includes non-special attributes missing from the fetched
mapping; see C10.) -/
theorem cluster_mutation_set_exact (p : ClusterParams) (cluster : Cluster)
    (hpres : ∀ kv, kv ∈ clusterApiArgs p → kv.1 = "VpcSecurityGroupIds" ∨
      (dlookup kv.1 cluster.attrs).isSome) (opt : String) (val : Val) :
    (opt, val) ∈ clusterModifyArgs cluster (clusterApiArgs p) ↔
      (opt, val) ∈ clusterApiArgs p ∧ clusterAttrDiffers cluster opt val := by
  rw [mem_clusterModifyArgs_iff]
  refine and_congr_right fun _ => ?_
  unfold clusterAttrDiffers
  by_cases hsg : opt = "VpcSecurityGroupIds"
  · rw [if_pos hsg, if_pos hsg]
    cases val with
    | list ids =>
      simp only [sgDiffers, sgSetDiffers, decide_eq_true_eq]
      exact (not_congr (pysorted_eq_iff cluster.vpcSecurityGroups ids)).trans ne_comm
    | str s => simp [sgDiffers, sgSetDiffers]
    | int n => simp [sgDiffers, sgSetDiffers]
    | bool b => simp [sgDiffers, sgSetDiffers]
    | tags ts => simp [sgDiffers, sgSetDiffers]
  · rw [if_neg hsg, if_neg hsg]
    exact decide_eq_true_iff

def pEngVer : ClusterParams := { pBase with engine_version := some "5.6" }

def cEngVer : Cluster :=
  { attrs := [("EngineVersion", Val.str "5.7")], vpcSecurityGroups := [],
    status := "available" }

/-- Witness for cluster_mutation_set_exact at a concrete input. -/
theorem cluster_mutation_set_exact_witness :
    ("EngineVersion", Val.str "5.6") ∈ clusterModifyArgs cEngVer (clusterApiArgs pEngVer) := by
  refine (cluster_mutation_set_exact pEngVer cEngVer ?_ "EngineVersion"
    (Val.str "5.6")).mpr ⟨by decide, ?_⟩
  · intro kv hkv
    have hkv2 : kv = ("EngineVersion", Val.str "5.6") := by
      simpa [clusterApiArgs, pEngVer, pBase, optEntry] using hkv
    subst hkv2
    exact Or.inr (by decide)
  · unfold clusterAttrDiffers
    rw [if_neg (by decide)]
    decide

/-! ## C2: security-group comparison -/

/-- The security-group entry of api_args is present when the parameter is. -/
theorem sg_mem_clusterApiArgs (p : ClusterParams) (ids : List String)
    (hvpc : p.vpc_security_group_ids = some ids) :
    ("VpcSecurityGroupIds", Val.list ids) ∈ clusterApiArgs p := by
  unfold clusterApiArgs
  refine List.mem_append_left _ (List.mem_append_right _ ?_)
  rw [hvpc]
  simp [optEntry]

/-- The security-group key maps only to the desired id list in api_args. -/
theorem sg_unique_clusterApiArgs (p : ClusterParams) (ids : List String)
    (hvpc : p.vpc_security_group_ids = some ids) {v : Val}
    (h : ("VpcSecurityGroupIds", v) ∈ clusterApiArgs p) : v = Val.list ids := by
  simp only [clusterApiArgs, List.mem_append, mem_optEntry_iff, hvpc] at h
  simp at h
  exact h.symm

def pSgDup : ClusterParams := { pBase with vpc_security_group_ids := some ["sg-1", "sg-1"] }

def cSgSingle : Cluster :=
  { attrs := [], vpcSecurityGroups := ["sg-1"], status := "available" }

/-- C2 counterexample: the claim says the security-group entry is present iff
the SET of desired IDs differs from the set of attached IDs.  With desired
[sg-1, sg-1] against current [sg-1] the two sets are equal, yet the sorted-list
comparison of line 164 flags a difference and the entry is present. -/
theorem cluster_sg_duplicate_ids_mutation :
    ("VpcSecurityGroupIds", Val.list ["sg-1", "sg-1"]) ∈
        clusterModifyArgs cSgSingle (clusterApiArgs pSgDup) ∧
    (["sg-1", "sg-1"] : List String).toFinset = (["sg-1"] : List String).toFinset := by
  constructor
  · decide
  · decide

/-- C2 (amended): the security-group MutationSet entry is present iff the
multiset of desired IDs differs from the multiset of attached IDs — order
insensitive but duplicate sensitive; and when the multisets agree no
security-group entry of any kind is in the MutationSet. -/
theorem cluster_sg_mutation_iff_multiset (p : ClusterParams) (cluster : Cluster)
    (ids : List String) (hvpc : p.vpc_security_group_ids = some ids) :
    (("VpcSecurityGroupIds", Val.list ids) ∈
        clusterModifyArgs cluster (clusterApiArgs p) ↔
      (ids : Multiset String) ≠ (cluster.vpcSecurityGroups : Multiset String)) ∧
    ((ids : Multiset String) = (cluster.vpcSecurityGroups : Multiset String) →
      ∀ v, ("VpcSecurityGroupIds", v) ∉ clusterModifyArgs cluster (clusterApiArgs p)) := by
  have hiff : ∀ w : List String,
      (("VpcSecurityGroupIds", Val.list w) ∈
          clusterModifyArgs cluster (clusterApiArgs p) ↔
        ("VpcSecurityGroupIds", Val.list w) ∈ clusterApiArgs p ∧
          (w : Multiset String) ≠ (cluster.vpcSecurityGroups : Multiset String)) := by
    intro w
    rw [mem_clusterModifyArgs_iff]
    refine and_congr_right fun _ => ?_
    rw [if_pos rfl]
    simp only [sgDiffers, decide_eq_true_eq]
    exact (not_congr (pysorted_eq_iff cluster.vpcSecurityGroups w)).trans ne_comm
  constructor
  · rw [hiff ids]
    constructor
    · exact fun h => h.2
    · exact fun h => ⟨sg_mem_clusterApiArgs p ids hvpc, h⟩
  · intro heq v hv
    have hm := List.mem_filter.mp hv
    have hveq := sg_unique_clusterApiArgs p ids hvpc hm.1
    subst hveq
    exact ((hiff ids).mp hv).2 heq

def pSg21 : ClusterParams := { pBase with vpc_security_group_ids := some ["sg-2", "sg-1"] }

def cSg12 : Cluster :=
  { attrs := [], vpcSecurityGroups := ["sg-1", "sg-2"], status := "available" }

/-- Witness for cluster_sg_mutation_iff_multiset: desired [sg-2, sg-1] against
current [sg-1, sg-2] yields no security-group mutation, an empty MutationSet,
and no modify call. -/
theorem cluster_sg_mutation_iff_multiset_witness :
    ("VpcSecurityGroupIds", Val.list ["sg-2", "sg-1"]) ∉
        clusterModifyArgs cSg12 (clusterApiArgs pSg21) ∧
    clusterModifyArgs cSg12 (clusterApiArgs pSg21) = [] ∧
    (clusterReconcile pSg21
      { gwClusterOk with describeResp := .ok (some [cSg12]) }).calls.modifyCall = none := by
  have h := cluster_sg_mutation_iff_multiset pSg21 cSg12 ["sg-2", "sg-1"] rfl
  exact ⟨fun hm => absurd (h.1.mp hm) (by decide), by decide, by decide⟩

/-! ## Helper lemmas about the reconcile control flow -/

theorem clusterExceptHandler_other {code : String} (p : ClusterParams)
    (gw : ClusterGateway) (cv : Option (Option (List Cluster))) (calls0 : ClusterCalls)
    (hne : code ≠ "DBClusterNotFoundFault") :
    clusterExceptHandler p gw code cv calls0 =
      .failJson code (some (clusterApiArgs p)) calls0 := by
  unfold clusterExceptHandler
  rw [if_neg hne]

theorem clusterExceptHandler_notfound (p : ClusterParams) (gw : ClusterGateway)
    (cv : Option (Option (List Cluster))) (calls0 : ClusterCalls) :
    clusterExceptHandler p gw "DBClusterNotFoundFault" cv calls0 =
      clusterNotFoundBranch p gw cv calls0 := by
  unfold clusterExceptHandler
  rw [if_pos rfl]

theorem instanceExceptHandler_other {code : String} (q : InstanceParams)
    (gw : InstanceGateway) (args0 : List (String × Val))
    (cv : Option (Option (List Instance))) (calls0 : InstanceCalls)
    (hne : code ≠ "DBInstanceNotFound") :
    instanceExceptHandler q gw code args0 cv calls0 =
      .failJson code (some args0) calls0 := by
  unfold instanceExceptHandler
  rw [if_neg hne]

theorem instanceExceptHandler_notfound (q : InstanceParams) (gw : InstanceGateway)
    (args0 : List (String × Val)) (cv : Option (Option (List Instance)))
    (calls0 : InstanceCalls) :
    instanceExceptHandler q gw "DBInstanceNotFound" args0 cv calls0 =
      instanceNotFoundBranch q gw args0 cv calls0 := by
  unfold instanceExceptHandler
  rw [if_pos rfl]

/-- Reduction of clusterReconcile when the initial describe finds exactly one
cluster. -/
theorem clusterReconcile_found (p : ClusterParams) (gw : ClusterGateway) (c : Cluster)
    (hdesc : gw.describeResp = .ok (some [c])) :
    clusterReconcile p gw =
      (if (clusterModifyArgs c (clusterApiArgs p)).isEmpty then
        .ok (.existing c) (if p.wait_timeout = 0 then 600 else p.wait_timeout)
          (some (some [c])) noClusterCalls
      else
        match gw.modifyResp with
        | .ok r =>
          .ok (.api r) (if p.wait_timeout = 0 then 600 else p.wait_timeout)
            (some (some [c]))
            { noClusterCalls with
              modifyCall := some (p.cluster_id, clusterModifyArgs c (clusterApiArgs p)) }
        | .error code =>
          clusterExceptHandler p gw code (some (some [c]))
            { noClusterCalls with
              modifyCall := some (p.cluster_id, clusterModifyArgs c (clusterApiArgs p)) }) := by
  obtain ⟨d, m, r, cr⟩ := gw
  cases hdesc
  rfl

/-- Reduction of clusterReconcile when the initial describe raises. -/
theorem clusterReconcile_error (p : ClusterParams) (gw : ClusterGateway) (code : String)
    (hdesc : gw.describeResp = .error code) :
    clusterReconcile p gw = clusterExceptHandler p gw code none noClusterCalls := by
  obtain ⟨d, m, r, cr⟩ := gw
  cases hdesc
  rfl

/-- Reduction of instanceReconcile when the initial describe finds exactly one
instance. -/
theorem instanceReconcile_found (q : InstanceParams) (gw : InstanceGateway)
    (inst : Instance) (hdesc : gw.describeResp = .ok (some [inst])) :
    instanceReconcile q gw =
      (if (instanceModifyArgs inst (instanceApiArgs q)).isEmpty then
        instanceTagPhase q gw (instanceApiArgs q) (some (some [inst])) inst
          noInstanceCalls (.existing inst)
      else
        match gw.modifyResp with
        | .ok r =>
          instanceTagPhase q gw (instanceApiArgs q) (some (some [inst])) inst
            { noInstanceCalls with
              modifyCall := some (q.instance_id, q.apply_immediately,
                instanceModifyArgs inst (instanceApiArgs q)) } (.api r)
        | .error code =>
          instanceExceptHandler q gw code (instanceApiArgs q) (some (some [inst]))
            { noInstanceCalls with
              modifyCall := some (q.instance_id, q.apply_immediately,
                instanceModifyArgs inst (instanceApiArgs q)) }) := by
  obtain ⟨d, m, lt, rt, at2, cr⟩ := gw
  cases hdesc
  rfl

/-- Reduction of instanceReconcile when the initial describe raises. -/
theorem instanceReconcile_error (q : InstanceParams) (gw : InstanceGateway)
    (code : String) (hdesc : gw.describeResp = .error code) :
    instanceReconcile q gw =
      instanceExceptHandler q gw code (instanceApiArgs q) none noInstanceCalls := by
  obtain ⟨d, m, lt, rt, at2, cr⟩ := gw
  cases hdesc
  rfl

/-- The calls record produced by a fully successful tag phase. -/
def tagPhaseCalls (inst : Instance) (qtags : Option (List (String × String)))
    (calls : InstanceCalls) : Option (List (String × String)) → InstanceCalls
  | none => calls
  | some tl =>
    match qtags with
    | none => { calls with removeTagsCall := some (inst.arn, tl.map Prod.fst) }
    | some ts => { calls with
        removeTagsCall := some (inst.arn, tl.map Prod.fst),
        addTagsCall := some (inst.arn, ts) }

theorem tagPhaseCalls_createCall (inst : Instance)
    (qtags : Option (List (String × String))) (calls : InstanceCalls)
    (tlo : Option (List (String × String))) :
    (tagPhaseCalls inst qtags calls tlo).createCall = calls.createCall := by
  cases tlo with
  | none => rfl
  | some tl => cases qtags <;> rfl

theorem tagPhaseCalls_modifyCall (inst : Instance)
    (qtags : Option (List (String × String))) (calls : InstanceCalls)
    (tlo : Option (List (String × String))) :
    (tagPhaseCalls inst qtags calls tlo).modifyCall = calls.modifyCall := by
  cases tlo with
  | none => rfl
  | some tl => cases qtags <;> rfl

/-- The tag phase with all three tag calls succeeding: the result and check
variable pass through; the remove call carries every current tag key and the
add call the full desired tag set, independently of whether they changed. -/
theorem instanceTagPhase_eq (q : InstanceParams) (gw : InstanceGateway)
    (args : List (String × Val)) (cv : Option (Option (List Instance)))
    (inst : Instance) (calls : InstanceCalls) (res : InstanceResultVal)
    (tlo : Option (List (String × String)))
    (hlist : gw.listTagsResp = .ok tlo) (hrem : gw.removeTagsResp = .ok ())
    (hadd : gw.addTagsResp = .ok ()) :
    instanceTagPhase q gw args cv inst calls res =
      .ok res cv (tagPhaseCalls inst q.tags calls tlo) := by
  obtain ⟨d, m, lt2, rt, at2, cr⟩ := gw
  cases hlist
  cases hrem
  cases hadd
  unfold instanceTagPhase tagPhaseCalls
  cases tlo with
  | none => rfl
  | some tl => cases hq : q.tags <;> rfl

/-! ## C3: no creation when found, no modify on empty MutationSet -/

def cBase : Cluster := { attrs := [], vpcSecurityGroups := [], status := "available" }

def iBase : Instance :=
  { attrs := [], dbParameterGroups := [], performanceInsightsEnabled := false,
    arn := "arn:i1", status := "available" }

/-- C3: for both reconcilers, when the initial describe finds the resource and
the gateway does not subsequently signal not-found, no creation (or restore)
call is issued; and when the computed MutationSet is empty no modify call is
issued and the fetched resource is returned verbatim as the result. -/
theorem reconciler_no_create_when_found :
    (∀ (p : ClusterParams) (gw : ClusterGateway) (c : Cluster),
      gw.describeResp = .ok (some [c]) →
      (∀ e, gw.modifyResp = .error e → e ≠ "DBClusterNotFoundFault") →
      ((clusterReconcile p gw).calls.createCall = none ∧
       (clusterReconcile p gw).calls.restoreCall = none) ∧
      (clusterModifyArgs c (clusterApiArgs p) = [] →
        (clusterReconcile p gw).calls.modifyCall = none ∧
        (clusterReconcile p gw).resultVal = some (.existing c))) ∧
    (∀ (q : InstanceParams) (gw : InstanceGateway) (inst : Instance)
      (tlo : Option (List (String × String))),
      gw.describeResp = .ok (some [inst]) →
      gw.listTagsResp = .ok tlo → gw.removeTagsResp = .ok () →
      gw.addTagsResp = .ok () →
      (∀ e, gw.modifyResp = .error e → e ≠ "DBInstanceNotFound") →
      (instanceReconcile q gw).calls.createCall = none ∧
      (instanceModifyArgs inst (instanceApiArgs q) = [] →
        (instanceReconcile q gw).calls.modifyCall = none ∧
        (instanceReconcile q gw).resultVal = some (.existing inst))) := by
  constructor
  · intro p gw c hdesc hmod
    rw [clusterReconcile_found p gw c hdesc]
    by_cases hempty : (clusterModifyArgs c (clusterApiArgs p)).isEmpty
    · rw [if_pos hempty]
      exact ⟨⟨rfl, rfl⟩, fun _ => ⟨rfl, rfl⟩⟩
    · rw [if_neg hempty]
      have hne : ¬ clusterModifyArgs c (clusterApiArgs p) = [] := by
        intro h0
        exact hempty (by rw [h0]; rfl)
      split
      · exact ⟨⟨rfl, rfl⟩, fun h0 => absurd h0 hne⟩
      · next e hmodr =>
        rw [clusterExceptHandler_other p gw _ _ (hmod e hmodr)]
        exact ⟨⟨rfl, rfl⟩, fun h0 => absurd h0 hne⟩
  · intro q gw inst tlo hdesc hlist hrem hadd hmod
    rw [instanceReconcile_found q gw inst hdesc]
    by_cases hempty : (instanceModifyArgs inst (instanceApiArgs q)).isEmpty
    · rw [if_pos hempty,
        instanceTagPhase_eq q gw _ _ inst _ _ tlo hlist hrem hadd]
      refine ⟨?_, fun _ => ⟨?_, rfl⟩⟩
      · exact tagPhaseCalls_createCall inst q.tags _ tlo
      · exact tagPhaseCalls_modifyCall inst q.tags _ tlo
    · rw [if_neg hempty]
      have hne : ¬ instanceModifyArgs inst (instanceApiArgs q) = [] := by
        intro h0
        exact hempty (by rw [h0]; rfl)
      split
      · rw [instanceTagPhase_eq q gw _ _ inst _ _ tlo hlist hrem hadd]
        exact ⟨tagPhaseCalls_createCall inst q.tags _ tlo, fun h0 => absurd h0 hne⟩
      · next e hmodr =>
        rw [instanceExceptHandler_other q gw _ _ _ (hmod e hmodr)]
        exact ⟨rfl, fun h0 => absurd h0 hne⟩

/-- Witness for reconciler_no_create_when_found at concrete inputs. -/
theorem reconciler_no_create_when_found_witness :
    ((clusterReconcile pBase
        { gwClusterOk with describeResp := .ok (some [cBase]) }).calls.createCall = none ∧
      (clusterReconcile pBase
        { gwClusterOk with describeResp := .ok (some [cBase]) }).resultVal =
          some (.existing cBase)) ∧
    ((instanceReconcile qBase
        { gwInstanceOk with describeResp := .ok (some [iBase]) }).calls.createCall = none ∧
      (instanceReconcile qBase
        { gwInstanceOk with describeResp := .ok (some [iBase]) }).resultVal =
          some (.existing iBase)) := by
  have hc := reconciler_no_create_when_found.1 pBase
    { gwClusterOk with describeResp := .ok (some [cBase]) } cBase rfl
    (fun e he => by cases he)
  have hi := reconciler_no_create_when_found.2 qBase
    { gwInstanceOk with describeResp := .ok (some [iBase]) } iBase none rfl rfl rfl rfl
    (fun e he => by cases he)
  exact ⟨⟨hc.1.1, (hc.2 (by decide)).2⟩, ⟨hi.1, (hi.2 (by decide)).2⟩⟩

/-! ## Characterization of the create/restore branch -/

theorem clusterNotFoundBranch_restore_ok (p : ClusterParams) (gw : ClusterGateway)
    (cv : Option (Option (List Cluster))) (calls0 : ClusterCalls) (arn : String)
    (r : String) (hsnap : p.snapshot_arn = some arn) (hrest : gw.restoreResp = .ok r) :
    clusterNotFoundBranch p gw cv calls0 =
      .ok (.api r) (if p.wait_timeout = 0 then 3600 else p.wait_timeout) cv
        { calls0 with restoreCall := some (clusterRestoreArgs p arn) } := by
  unfold clusterNotFoundBranch
  rw [hsnap, hrest]

theorem clusterNotFoundBranch_restore_err (p : ClusterParams) (gw : ClusterGateway)
    (cv : Option (Option (List Cluster))) (calls0 : ClusterCalls) (arn : String)
    (e : String) (hsnap : p.snapshot_arn = some arn) (hrest : gw.restoreResp = .error e) :
    clusterNotFoundBranch p gw cv calls0 =
      .failJson e (some (clusterRestoreArgs p arn))
        { calls0 with restoreCall := some (clusterRestoreArgs p arn) } := by
  unfold clusterNotFoundBranch
  rw [hsnap, hrest]

theorem clusterNotFoundBranch_create_ok (p : ClusterParams) (gw : ClusterGateway)
    (cv : Option (Option (List Cluster))) (calls0 : ClusterCalls) (r : String)
    (hsnap : p.snapshot_arn = none) (hcre : gw.createResp = .ok r) :
    clusterNotFoundBranch p gw cv calls0 =
      .ok (.api r) (if p.wait_timeout = 0 then 600 else p.wait_timeout) cv
        { calls0 with createCall := some (clusterCreateArgs p) } := by
  unfold clusterNotFoundBranch
  rw [hsnap, hcre]

theorem clusterNotFoundBranch_create_err (p : ClusterParams) (gw : ClusterGateway)
    (cv : Option (Option (List Cluster))) (calls0 : ClusterCalls) (e : String)
    (hsnap : p.snapshot_arn = none) (hcre : gw.createResp = .error e) :
    clusterNotFoundBranch p gw cv calls0 =
      .failJson e (some (clusterCreateArgs p))
        { calls0 with createCall := some (clusterCreateArgs p) } := by
  unfold clusterNotFoundBranch
  rw [hsnap, hcre]

theorem instanceNotFoundBranch_ok (q : InstanceParams) (gw : InstanceGateway)
    (args0 : List (String × Val)) (cv : Option (Option (List Instance)))
    (calls0 : InstanceCalls) (r : String) (hcre : gw.createResp = .ok r) :
    instanceNotFoundBranch q gw args0 cv calls0 =
      .ok (.api r) cv { calls0 with createCall := some (instanceCreateArgsFrom q args0) } := by
  unfold instanceNotFoundBranch
  rw [hcre]

theorem instanceNotFoundBranch_err (q : InstanceParams) (gw : InstanceGateway)
    (args0 : List (String × Val)) (cv : Option (Option (List Instance)))
    (calls0 : InstanceCalls) (e : String) (hcre : gw.createResp = .error e) :
    instanceNotFoundBranch q gw args0 cv calls0 =
      .failJson e (some (instanceCreateArgsFrom q args0))
        { calls0 with createCall := some (instanceCreateArgsFrom q args0) } := by
  unfold instanceNotFoundBranch
  rw [hcre]

/-! ## C4: error-code driven branching -/

/-- C4: exactly the resource-type-specific not-found code enters the
create/restore branch; any other fetch error, and any error during the
create/restore call itself, fails immediately with the attempted api_args and
no further calls (the single-shot gateway call record rules out retries). -/
theorem reconciler_error_code_branching :
    (∀ (p : ClusterParams) (gw : ClusterGateway) (code : String),
      gw.describeResp = .error code → code ≠ "DBClusterNotFoundFault" →
      clusterReconcile p gw = .failJson code (some (clusterApiArgs p)) noClusterCalls) ∧
    (∀ (p : ClusterParams) (gw : ClusterGateway),
      gw.describeResp = .error "DBClusterNotFoundFault" →
      (clusterReconcile p gw).calls.restoreCall.isSome ∨
        (clusterReconcile p gw).calls.createCall.isSome) ∧
    (∀ (p : ClusterParams) (gw : ClusterGateway) (arn e2 : String),
      gw.describeResp = .error "DBClusterNotFoundFault" → p.snapshot_arn = some arn →
      gw.restoreResp = .error e2 →
      clusterReconcile p gw = .failJson e2 (some (clusterRestoreArgs p arn))
        ⟨none, some (clusterRestoreArgs p arn), none⟩) ∧
    (∀ (p : ClusterParams) (gw : ClusterGateway) (e2 : String),
      gw.describeResp = .error "DBClusterNotFoundFault" → p.snapshot_arn = none →
      gw.createResp = .error e2 →
      clusterReconcile p gw = .failJson e2 (some (clusterCreateArgs p))
        ⟨none, none, some (clusterCreateArgs p)⟩) ∧
    (∀ (q : InstanceParams) (gw : InstanceGateway) (code : String),
      gw.describeResp = .error code → code ≠ "DBInstanceNotFound" →
      instanceReconcile q gw = .failJson code (some (instanceApiArgs q)) noInstanceCalls) ∧
    (∀ (q : InstanceParams) (gw : InstanceGateway),
      gw.describeResp = .error "DBInstanceNotFound" →
      (instanceReconcile q gw).calls.createCall = some (instanceCreateArgs q) ∧
      (∀ e2, gw.createResp = .error e2 →
        instanceReconcile q gw = .failJson e2 (some (instanceCreateArgs q))
          ⟨none, none, none, some (instanceCreateArgs q)⟩)) := by
  refine ⟨?_, ?_, ?_, ?_, ?_, ?_⟩
  · intro p gw code hdesc hne
    rw [clusterReconcile_error p gw code hdesc, clusterExceptHandler_other p gw _ _ hne]
  · intro p gw hdesc
    rw [clusterReconcile_error p gw _ hdesc, clusterExceptHandler_notfound]
    cases hsnap : p.snapshot_arn with
    | some arn =>
      left
      cases hrest : gw.restoreResp with
      | ok r => rw [clusterNotFoundBranch_restore_ok p gw _ _ arn r hsnap hrest]; rfl
      | error e => rw [clusterNotFoundBranch_restore_err p gw _ _ arn e hsnap hrest]; rfl
    | none =>
      right
      cases hcre : gw.createResp with
      | ok r => rw [clusterNotFoundBranch_create_ok p gw _ _ r hsnap hcre]; rfl
      | error e => rw [clusterNotFoundBranch_create_err p gw _ _ e hsnap hcre]; rfl
  · intro p gw arn e2 hdesc hsnap hrest
    rw [clusterReconcile_error p gw _ hdesc, clusterExceptHandler_notfound,
      clusterNotFoundBranch_restore_err p gw _ _ arn e2 hsnap hrest]
    rfl
  · intro p gw e2 hdesc hsnap hcre
    rw [clusterReconcile_error p gw _ hdesc, clusterExceptHandler_notfound,
      clusterNotFoundBranch_create_err p gw _ _ e2 hsnap hcre]
    rfl
  · intro q gw code hdesc hne
    rw [instanceReconcile_error q gw code hdesc, instanceExceptHandler_other q gw _ _ _ hne]
  · intro q gw hdesc
    rw [instanceReconcile_error q gw _ hdesc, instanceExceptHandler_notfound]
    constructor
    · cases hcre : gw.createResp with
      | ok r => rw [instanceNotFoundBranch_ok q gw _ _ _ r hcre]; rfl
      | error e => rw [instanceNotFoundBranch_err q gw _ _ _ e hcre]; rfl
    · intro e2 hcre
      rw [instanceNotFoundBranch_err q gw _ _ _ e2 hcre]
      rfl

/-- Witness for reconciler_error_code_branching at concrete inputs. -/
theorem reconciler_error_code_branching_witness :
    clusterReconcile pBase { gwClusterOk with describeResp := .error "Throttled" } =
      .failJson "Throttled" (some (clusterApiArgs pBase)) noClusterCalls ∧
    instanceReconcile qBase { gwInstanceOk with describeResp := .error "AccessDenied" } =
      .failJson "AccessDenied" (some (instanceApiArgs qBase)) noInstanceCalls := by
  exact ⟨reconciler_error_code_branching.1 pBase _ "Throttled" rfl (by decide),
    reconciler_error_code_branching.2.2.2.2.1 qBase _ "AccessDenied" rfl (by decide)⟩

/-! ## C5: branch correctness and call contents -/

theorem dlookup_clusterBaseArgs_id (p : ClusterParams) :
    dlookup "DBClusterIdentifier" (clusterBaseArgs p) = some (.str p.cluster_id) := by
  unfold clusterBaseArgs
  exact dlookup_append_of_some (dlookup_append_of_some
    ((dlookup_append_of_none
      (dlookup_clusterApiArgs_none p (by decide) (by decide) (by decide) (by decide)
        (by decide) (by decide) (by decide))).trans (dlookup_cons_self _ _ _)))

theorem dlookup_clusterBaseArgs_engine (p : ClusterParams) (e : String)
    (he : p.engine = some e) :
    dlookup "Engine" (clusterBaseArgs p) = some (.str e) := by
  unfold clusterBaseArgs
  refine dlookup_append_of_some ?_
  have hab : dlookup "Engine"
      (clusterApiArgs p ++ [("DBClusterIdentifier", Val.str p.cluster_id)]) = none :=
    dlookup_append_none
      (dlookup_clusterApiArgs_none p (by decide) (by decide) (by decide) (by decide)
        (by decide) (by decide) (by decide))
      ((dlookup_cons_ne (by decide) _ _).trans rfl)
  rw [dlookup_append_of_none hab, he]
  exact dlookup_optEntry_self _ _

theorem dlookup_clusterBaseArgs_subnet (p : ClusterParams) (s : String)
    (hs : p.subnet_group = some s) :
    dlookup "DBSubnetGroupName" (clusterBaseArgs p) = some (.str s) := by
  unfold clusterBaseArgs
  have habc : dlookup "DBSubnetGroupName"
      (clusterApiArgs p ++ [("DBClusterIdentifier", Val.str p.cluster_id)] ++
        optEntry "Engine" (p.engine.map .str)) = none :=
    dlookup_append_none (dlookup_append_none
      (dlookup_clusterApiArgs_none p (by decide) (by decide) (by decide) (by decide)
        (by decide) (by decide) (by decide))
      ((dlookup_cons_ne (by decide) _ _).trans rfl))
      (dlookup_optEntry_ne (by decide) _)
  rw [dlookup_append_of_none habc, hs]
  exact dlookup_optEntry_self _ _

theorem dlookup_clusterBaseArgs_none (p : ClusterParams) {k : String}
    (h1 : k ≠ "AvailabilityZones") (h2 : k ≠ "EngineVersion") (h3 : k ≠ "Port")
    (h4 : k ≠ "DatabaseName") (h5 : k ≠ "OptionGroupName")
    (h6 : k ≠ "VpcSecurityGroupIds") (h7 : k ≠ "Tags")
    (h8 : k ≠ "DBClusterIdentifier") (h9 : k ≠ "Engine")
    (h10 : k ≠ "DBSubnetGroupName") :
    dlookup k (clusterBaseArgs p) = none := by
  unfold clusterBaseArgs
  exact dlookup_append_none (dlookup_append_none (dlookup_append_none
    (dlookup_clusterApiArgs_none p h1 h2 h3 h4 h5 h6 h7)
    ((dlookup_cons_ne h8 _ _).trans rfl))
    (dlookup_optEntry_ne h9 _))
    (dlookup_optEntry_ne h10 _)

theorem dlookup_clusterRestoreArgs_snapshot (p : ClusterParams) (arn : String) :
    dlookup "SnapshotIdentifier" (clusterRestoreArgs p arn) = some (.str arn) := by
  unfold clusterRestoreArgs
  exact (dlookup_append_of_none
    (dlookup_clusterBaseArgs_none p (by decide) (by decide) (by decide) (by decide)
      (by decide) (by decide) (by decide) (by decide) (by decide) (by decide))).trans
    (dlookup_cons_self _ _ _)

theorem dlookup_clusterRestoreArgs_of_base (p : ClusterParams) (arn : String)
    {k : String} {v : Val} (h : dlookup k (clusterBaseArgs p) = some v) :
    dlookup k (clusterRestoreArgs p arn) = some v :=
  dlookup_append_of_some h

theorem dlookup_clusterCreateArgs_of_base (p : ClusterParams) {k : String} {v : Val}
    (h : dlookup k (clusterBaseArgs p) = some v) :
    dlookup k (clusterCreateArgs p) = some v :=
  dlookup_append_of_some (dlookup_append_of_some h)

theorem dlookup_clusterCreateArgs_username (p : ClusterParams) (u : String)
    (hu : p.master_username = some u) :
    dlookup "MasterUsername" (clusterCreateArgs p) = some (.str u) := by
  unfold clusterCreateArgs
  refine dlookup_append_of_some ?_
  rw [dlookup_append_of_none
    (dlookup_clusterBaseArgs_none p (by decide) (by decide) (by decide) (by decide)
      (by decide) (by decide) (by decide) (by decide) (by decide) (by decide)), hu]
  exact dlookup_optEntry_self _ _

theorem dlookup_clusterCreateArgs_password (p : ClusterParams) (w : String)
    (hw : p.master_password = some w) :
    dlookup "MasterUserPassword" (clusterCreateArgs p) = some (.str w) := by
  unfold clusterCreateArgs
  have hbu : dlookup "MasterUserPassword"
      (clusterBaseArgs p ++ optEntry "MasterUsername" (p.master_username.map .str)) =
        none :=
    dlookup_append_none
      (dlookup_clusterBaseArgs_none p (by decide) (by decide) (by decide) (by decide)
        (by decide) (by decide) (by decide) (by decide) (by decide) (by decide))
      (dlookup_optEntry_ne (by decide) _)
  rw [dlookup_append_of_none hbu, hw]
  exact dlookup_optEntry_self _ _

/-- C5: on a cluster not-found signal, a snapshot reference selects
restore-from-snapshot (never direct-create) whose arguments carry the snapshot
reference, identifier, and the engine / subnet-group / engine-version values
when set; no snapshot reference selects direct-create (never restore) whose
arguments carry identifier, engine, subnet group and the master credentials
when set. -/
theorem cluster_notfound_create_restore_branch (p : ClusterParams)
    (gw : ClusterGateway) (hdesc : gw.describeResp = .error "DBClusterNotFoundFault") :
    (∀ arn, p.snapshot_arn = some arn →
      (clusterReconcile p gw).calls.restoreCall = some (clusterRestoreArgs p arn) ∧
      (clusterReconcile p gw).calls.createCall = none ∧
      dlookup "SnapshotIdentifier" (clusterRestoreArgs p arn) = some (.str arn) ∧
      dlookup "DBClusterIdentifier" (clusterRestoreArgs p arn) =
        some (.str p.cluster_id) ∧
      (∀ e, p.engine = some e →
        dlookup "Engine" (clusterRestoreArgs p arn) = some (.str e)) ∧
      (∀ s, p.subnet_group = some s →
        dlookup "DBSubnetGroupName" (clusterRestoreArgs p arn) = some (.str s))) ∧
    (p.snapshot_arn = none →
      (clusterReconcile p gw).calls.createCall = some (clusterCreateArgs p) ∧
      (clusterReconcile p gw).calls.restoreCall = none ∧
      dlookup "DBClusterIdentifier" (clusterCreateArgs p) = some (.str p.cluster_id) ∧
      (∀ e, p.engine = some e →
        dlookup "Engine" (clusterCreateArgs p) = some (.str e)) ∧
      (∀ s, p.subnet_group = some s →
        dlookup "DBSubnetGroupName" (clusterCreateArgs p) = some (.str s)) ∧
      (∀ u, p.master_username = some u →
        dlookup "MasterUsername" (clusterCreateArgs p) = some (.str u)) ∧
      (∀ w, p.master_password = some w →
        dlookup "MasterUserPassword" (clusterCreateArgs p) = some (.str w))) := by
  rw [clusterReconcile_error p gw _ hdesc, clusterExceptHandler_notfound]
  constructor
  · intro arn hsnap
    have hcalls : (clusterNotFoundBranch p gw none noClusterCalls).calls =
        { noClusterCalls with restoreCall := some (clusterRestoreArgs p arn) } := by
      cases hrest : gw.restoreResp with
      | ok r => rw [clusterNotFoundBranch_restore_ok p gw _ _ arn r hsnap hrest]; rfl
      | error e => rw [clusterNotFoundBranch_restore_err p gw _ _ arn e hsnap hrest]; rfl
    rw [hcalls]
    refine ⟨rfl, rfl, dlookup_clusterRestoreArgs_snapshot p arn,
      dlookup_clusterRestoreArgs_of_base p arn (dlookup_clusterBaseArgs_id p),
      fun e he => dlookup_clusterRestoreArgs_of_base p arn
        (dlookup_clusterBaseArgs_engine p e he),
      fun s hs => dlookup_clusterRestoreArgs_of_base p arn
        (dlookup_clusterBaseArgs_subnet p s hs)⟩
  · intro hsnap
    have hcalls : (clusterNotFoundBranch p gw none noClusterCalls).calls =
        { noClusterCalls with createCall := some (clusterCreateArgs p) } := by
      cases hcre : gw.createResp with
      | ok r => rw [clusterNotFoundBranch_create_ok p gw _ _ r hsnap hcre]; rfl
      | error e => rw [clusterNotFoundBranch_create_err p gw _ _ e hsnap hcre]; rfl
    rw [hcalls]
    refine ⟨rfl, rfl, dlookup_clusterCreateArgs_of_base p (dlookup_clusterBaseArgs_id p),
      fun e he => dlookup_clusterCreateArgs_of_base p
        (dlookup_clusterBaseArgs_engine p e he),
      fun s hs => dlookup_clusterCreateArgs_of_base p
        (dlookup_clusterBaseArgs_subnet p s hs),
      fun u hu => dlookup_clusterCreateArgs_username p u hu,
      fun w hw => dlookup_clusterCreateArgs_password p w hw⟩

def pC5 : ClusterParams :=
  { pBase with engine := some "aurora", subnet_group := some "sg1" }

/-- Witness for cluster_notfound_create_restore_branch: the spec's example
DesiredConfig (identifier c1, subnet group sg1, engine aurora, no snapshot)
produces a direct-create call whose argument dictionary is exactly
DBClusterIdentifier=c1, Engine=aurora, DBSubnetGroupName=sg1, and no restore
call occurs. -/
theorem cluster_notfound_create_restore_branch_witness :
    (clusterReconcile pC5
        { gwClusterOk with describeResp := .error "DBClusterNotFoundFault" }).calls.createCall =
      some [("DBClusterIdentifier", Val.str "c1"), ("Engine", Val.str "aurora"),
        ("DBSubnetGroupName", Val.str "sg1")] ∧
    (clusterReconcile pC5
        { gwClusterOk with describeResp := .error "DBClusterNotFoundFault" }).calls.restoreCall =
      none := by
  have h := (cluster_notfound_create_restore_branch pC5
    { gwClusterOk with describeResp := .error "DBClusterNotFoundFault" } rfl).2 rfl
  refine ⟨h.1.trans (by decide), h.2.1⟩

/-! ## C6: waiter timing and timeout report -/

/-- Number of polls the loop performs when the resource never becomes ready:
one per 5-second tick strictly before the deadline. -/
def pollCount (d t : Nat) : Nat := (d - t + 4) / 5

/-- The value of the check variable after m polls starting at index i: updated
by every successful fetch, kept on errors. -/
def finalCheck {R : Type} (fetch : Nat → Except String (Option (List R))) :
    Nat → Nat → Option (Option (List R)) → Option (Option (List R))
  | 0, _, cv => cv
  | m + 1, i, cv => finalCheck fetch m (i + 1) (pollUpdate cv (fetch i))

theorem range_map_shift (t n : Nat) :
    (List.range (n + 1)).map (fun k => t + 5 * k) =
      t :: (List.range n).map (fun k => t + 5 + 5 * k) := by
  rw [List.range_succ_eq_map, List.map_cons, List.map_map]
  refine congrArg₂ List.cons (show t + 5 * 0 = t by omega) ?_
  congr 1
  funext k
  show t + 5 * (k + 1) = t + 5 + 5 * k
  omega

/-- C6 (amended): when the resource's status never tests as available before
the deadline, the waiter polls at exactly the 5-second ticks strictly before
the deadline and then reports a timeout carrying the resource from the most
recent successful fetch — which includes the check variable's value from
before the loop (the pre-waiter existence check), none only when that last
response is malformed, and an unbound-variable crash when no fetch in the
whole invocation ever succeeded. -/
theorem waiter_timeout_reports_last_fetched {R : Type} (getStatus : R → String)
    (fetch : Nat → Except String (Option (List R))) (d : Nat) (fuel t i : Nat)
    (cv : Option (Option (List R))) (hfuel : pollCount d t < fuel)
    (hnever : ∀ j, availResp getStatus (fetch j) = false) :
    waitFrom getStatus fetch d fuel t i cv =
      (timeoutReport (finalCheck fetch (pollCount d t) i cv),
       (List.range (pollCount d t)).map (fun k => t + 5 * k)) := by
  induction fuel generalizing t i cv with
  | zero => exact absurd hfuel (Nat.not_lt_zero _)
  | succ n ih =>
    by_cases ht : t < d
    · have hpc : pollCount d t = pollCount d (t + 5) + 1 := by
        unfold pollCount
        omega
      have hrec := ih (t + 5) (i + 1) (pollUpdate cv (fetch i)) (by omega)
      unfold waitFrom
      rw [if_pos ht, hnever i, if_neg (fun h => Bool.false_ne_true h), hrec, hpc]
      simp only [Prod.mk.injEq]
      exact ⟨rfl, (range_map_shift t (pollCount d (t + 5))).symm⟩
    · have hpc : pollCount d t = 0 := by
        unfold pollCount
        omega
      unfold waitFrom
      rw [if_neg ht, hpc]
      rfl

/-- C6 counterexample: the claim says the timeout report carries none when
every poll failed.  Here every poll raises, yet the report carries the cluster
from the pre-waiter describe, because the source's check_cluster variable
retains the value assigned before the loop (lines 228-233). -/
theorem waiter_allfail_carries_initial_snapshot :
    waitFrom Cluster.status (fun _ => .error "AccessDenied") 7 8 0 0
        (some (some [cBase])) = (.timedOut (some cBase), [0, 5]) := by
  rfl

/-- Witness for waiter_timeout_reports_last_fetched at a concrete input:
first poll returns a malformed response, later polls raise; three polls at
0, 5, 10 and a timeout report from the last successful fetch. -/
theorem waiter_timeout_reports_last_fetched_witness :
    waitFrom Cluster.status
        (fun j => if j = 0 then .ok none else .error "Throttled") 12 13 0 0 none =
      (.timedOut none, [0, 5, 10]) := by
  have h := waiter_timeout_reports_last_fetched Cluster.status
    (fun j => if j = 0 then .ok none else .error "Throttled") 12 13 0 0 none
    (by decide) (fun j => by by_cases hj : j = 0 <;> simp [hj, availResp])
  exact h.trans (by decide)

/-! ## C7: wait-timeout defaults -/

/-- C7 (amended): in the cluster module a supplied wait_timeout of 0 selects an
operation-dependent default — 600 seconds on the found/modify path and on
direct create, 3600 seconds on snapshot restore.  The instance module has no
such sentinel: its declared default 1200 is substituted at argument parsing
only when the parameter is omitted, a supplied value (including 0) passes
through unchanged, and 1200 lies strictly between the two cluster defaults
rather than below both. -/
theorem wait_timeout_defaults :
    (∀ (p : ClusterParams) (gw : ClusterGateway) (c : Cluster),
      p.wait_timeout = 0 → gw.describeResp = .ok (some [c]) →
      (clusterModifyArgs c (clusterApiArgs p) = [] ∨ (∃ r, gw.modifyResp = .ok r)) →
      (clusterReconcile p gw).waitSecs = some 600) ∧
    (∀ (p : ClusterParams) (gw : ClusterGateway) (arn r : String),
      p.wait_timeout = 0 → gw.describeResp = .error "DBClusterNotFoundFault" →
      p.snapshot_arn = some arn → gw.restoreResp = .ok r →
      (clusterReconcile p gw).waitSecs = some 3600) ∧
    (∀ (p : ClusterParams) (gw : ClusterGateway) (r : String),
      p.wait_timeout = 0 → gw.describeResp = .error "DBClusterNotFoundFault" →
      p.snapshot_arn = none → gw.createResp = .ok r →
      (clusterReconcile p gw).waitSecs = some 600) ∧
    (∀ w : Nat, resolveInstanceWaitTimeout (some w) = w) ∧
    resolveInstanceWaitTimeout none = 1200 ∧
    (600 < 1200 ∧ 1200 < 3600) := by
  refine ⟨?_, ?_, ?_, fun w => rfl, rfl, by omega, by omega⟩
  · intro p gw c hwt hdesc hcase
    rw [clusterReconcile_found p gw c hdesc]
    by_cases hempty : (clusterModifyArgs c (clusterApiArgs p)).isEmpty
    · rw [if_pos hempty, if_pos hwt]
      rfl
    · rcases hcase with h0 | ⟨r, hr⟩
      · exact absurd (by rw [h0]; rfl) hempty
      · rw [if_neg hempty, hr, if_pos hwt]
        rfl
  · intro p gw arn r hwt hdesc hsnap hrest
    rw [clusterReconcile_error p gw _ hdesc, clusterExceptHandler_notfound,
      clusterNotFoundBranch_restore_ok p gw _ _ arn r hsnap hrest, if_pos hwt]
    rfl
  · intro p gw r hwt hdesc hsnap hcre
    rw [clusterReconcile_error p gw _ hdesc, clusterExceptHandler_notfound,
      clusterNotFoundBranch_create_ok p gw _ _ r hsnap hcre, if_pos hwt]
    rfl

def qWait0 : InstanceParams := { qBase with wait := true }

/-- C7 counterexample: the claim says a supplied wait_timeout of 0 means a
type-specific default deadline.  In the instance module a supplied 0 is used
as-is: the waiter's deadline is 0, it performs no poll at all and fails with
an immediate timeout, instead of waiting out the declared 1200-second
default. -/
theorem instance_wait_timeout_zero_means_zero :
    create_db_instance qWait0 { gwInstanceOk with describeResp := .ok (some [iBase]) }
        (fun _ => .ok (some [iBase])) =
      (.failedTimeout (some iBase), noInstanceCalls, ([] : List Nat)) ∧
    resolveInstanceWaitTimeout (some 0) = 0 := by
  exact ⟨rfl, rfl⟩

/-- Witness for wait_timeout_defaults at concrete inputs. -/
theorem wait_timeout_defaults_witness :
    (clusterReconcile { pBase with snapshot_arn := some "arn1" }
        { gwClusterOk with describeResp := .error "DBClusterNotFoundFault" }).waitSecs =
      some 3600 ∧
    (clusterReconcile pC5
        { gwClusterOk with describeResp := .error "DBClusterNotFoundFault" }).waitSecs =
      some 600 ∧
    resolveInstanceWaitTimeout none = 1200 := by
  refine ⟨wait_timeout_defaults.2.1 _ _ "arn1" "r" rfl rfl rfl rfl, ?_,
    wait_timeout_defaults.2.2.2.2.1⟩
  exact wait_timeout_defaults.2.2.1 pC5 _ "c" rfl rfl rfl rfl

/-! ## C8: state=absent reconciliation -/

/-- C8: main dispatches state=absent to the delete operation for the
identifier; the delete treats the resource-specific not-found code (an
already-absent resource) as success and any other gateway error as fatal. -/
theorem absent_state_delete_idempotent :
    (∀ (p : ClusterParams) (gw : ClusterGateway)
      (fetch : Nat → Except String (Option (List Cluster)))
      (dresp : Except String Unit),
      cluster_main p "absent" gw fetch dresp =
        .deleted (terminate_cluster p.cluster_id dresp)) ∧
    (∀ (cid : String) (dresp : Except String Unit),
      (terminate_cluster cid dresp).2 = cid ∧
      (dresp = .ok () → (terminate_cluster cid dresp).1 = .succeeded) ∧
      (dresp = .error "DBClusterNotFoundFault" →
        (terminate_cluster cid dresp).1 = .succeeded) ∧
      (∀ code, dresp = .error code → code ≠ "DBClusterNotFoundFault" →
        (terminate_cluster cid dresp).1 = .fatal code)) ∧
    (∀ (q : InstanceParams) (gw : InstanceGateway)
      (fetch : Nat → Except String (Option (List Instance)))
      (dresp : Except String Unit),
      instance_main q "absent" gw fetch dresp =
        .deleted (terminate_db_instance q.instance_id dresp)) ∧
    (∀ (iid : String) (dresp : Except String Unit),
      (terminate_db_instance iid dresp).2 = iid ∧
      (dresp = .ok () → (terminate_db_instance iid dresp).1 = .succeeded) ∧
      (dresp = .error "DBInstanceNotFound" →
        (terminate_db_instance iid dresp).1 = .succeeded) ∧
      (∀ code, dresp = .error code → code ≠ "DBInstanceNotFound" →
        (terminate_db_instance iid dresp).1 = .fatal code)) := by
  refine ⟨fun p gw fetch dresp => rfl, ?_, fun q gw fetch dresp => rfl, ?_⟩
  · intro cid dresp
    refine ⟨rfl, fun h => by cases h; rfl, fun h => by cases h; rfl, ?_⟩
    intro code h hne
    cases h
    simp [terminate_cluster, hne]
  · intro iid dresp
    refine ⟨rfl, fun h => by cases h; rfl, fun h => by cases h; rfl, ?_⟩
    intro code h hne
    cases h
    simp [terminate_db_instance, hne]

/-- Witness for absent_state_delete_idempotent at concrete inputs: deleting an
already-absent cluster succeeds; an access error during instance delete is
fatal. -/
theorem absent_state_delete_idempotent_witness :
    cluster_main pBase "absent" gwClusterOk (fun _ => .ok (some []))
        (.error "DBClusterNotFoundFault") = .deleted (.succeeded, "c1") ∧
    (terminate_db_instance "i1" (.error "AccessDenied")).1 = .fatal "AccessDenied" := by
  have h1 := absent_state_delete_idempotent.1 pBase gwClusterOk (fun _ => .ok (some []))
    (.error "DBClusterNotFoundFault")
  have h2 := (absent_state_delete_idempotent.2.2.2 "i1"
    (.error "AccessDenied")).2.2.2 "AccessDenied" rfl (by decide)
  exact ⟨h1.trans (by decide), h2⟩

/-! ## C9: tag reconciliation -/

theorem instanceExceptHandler_modifyCall (q : InstanceParams) (gw : InstanceGateway)
    (code : String) (args : List (String × Val)) (cv : Option (Option (List Instance)))
    (calls : InstanceCalls) :
    (instanceExceptHandler q gw code args cv calls).calls.modifyCall =
      calls.modifyCall := by
  unfold instanceExceptHandler
  by_cases h : code = "DBInstanceNotFound"
  · rw [if_pos h]
    unfold instanceNotFoundBranch
    split <;> rfl
  · rw [if_neg h]
    rfl

theorem instanceTagPhase_modifyCall (q : InstanceParams) (gw : InstanceGateway)
    (args : List (String × Val)) (cv : Option (Option (List Instance)))
    (inst : Instance) (calls : InstanceCalls) (res : InstanceResultVal) :
    (instanceTagPhase q gw args cv inst calls res).calls.modifyCall =
      calls.modifyCall := by
  unfold instanceTagPhase
  split
  · next code heq => exact instanceExceptHandler_modifyCall q gw code _ cv calls
  · rfl
  · next tl heq =>
    split
    · next code heq2 => exact instanceExceptHandler_modifyCall q gw code _ cv _
    · split
      · rfl
      · next ts heq3 =>
        split
        · next code heq4 => exact instanceExceptHandler_modifyCall q gw code _ cv _
        · rfl

def pTagsSame : ClusterParams := { pBase with tags := some [("Name", "x")] }

def cTagsSame : Cluster :=
  { attrs := [("Tags", Val.tags [("Name", "x")])], vpcSecurityGroups := [],
    status := "available" }

/-- C9 counterexample: the claim says the found branch unconditionally removes
the full current tag set and reapplies the desired one.  The cluster
reconciler makes no tag-management call at all — its call record (which
enumerates every mutating call create_cluster can issue) has no tag
operations, and in this found-branch run with desired tags equal to current
tags the reconciliation issues no call whatsoever: tags are handled inside the
MutationSet instead (line 166). -/
theorem cluster_tags_not_reconciled_separately :
    clusterReconcile pTagsSame
        { gwClusterOk with describeResp := .ok (some [cTagsSame]) } =
      .ok (.existing cTagsSame) 600 (some (some [cTagsSame])) noClusterCalls := by
  rfl

/-- C9 (amended): in the instance reconciler's found branch tags are
reconciled separately from the MutationSet and unconditionally — every
current tag key is removed and, when desired tags were supplied, the full
desired set is re-added, whether or not anything changed; in the cluster
reconciler tags are instead part of the MutationSet, compared by
order-sensitive list equality. -/
theorem instance_tags_reconciled_unconditionally :
    (∀ (q : InstanceParams) (gw : InstanceGateway) (inst : Instance)
      (tl : List (String × String)) (r : String),
      gw.describeResp = .ok (some [inst]) →
      gw.listTagsResp = .ok (some tl) →
      gw.removeTagsResp = .ok () → gw.addTagsResp = .ok () →
      (instanceModifyArgs inst (instanceApiArgs q) = [] ∨ gw.modifyResp = .ok r) →
      (instanceReconcile q gw).calls.removeTagsCall =
        some (inst.arn, tl.map Prod.fst) ∧
      (∀ ts, q.tags = some ts →
        (instanceReconcile q gw).calls.addTagsCall = some (inst.arn, ts)) ∧
      (q.tags = none → (instanceReconcile q gw).calls.addTagsCall = none)) ∧
    (∀ (p : ClusterParams) (cluster : Cluster) (ts : List (String × String)),
      p.tags = some ts →
      (("Tags", Val.tags ts) ∈ clusterModifyArgs cluster (clusterApiArgs p) ↔
        dlookup "Tags" cluster.attrs ≠ some (Val.tags ts))) := by
  constructor
  · intro q gw inst tl r hdesc hlist hrem hadd hcase
    have hconc : ∀ calls : InstanceCalls,
        (tagPhaseCalls inst q.tags calls (some tl)).removeTagsCall =
          some (inst.arn, tl.map Prod.fst) ∧
        (∀ ts, q.tags = some ts →
          (tagPhaseCalls inst q.tags calls (some tl)).addTagsCall =
            some (inst.arn, ts)) ∧
        (q.tags = none →
          (tagPhaseCalls inst q.tags calls (some tl)).addTagsCall =
            calls.addTagsCall) := by
      intro calls
      refine ⟨?_, ?_, ?_⟩
      · cases q.tags <;> rfl
      · intro ts hts
        rw [hts]
        rfl
      · intro hts
        rw [hts]
        rfl
    rw [instanceReconcile_found q gw inst hdesc]
    by_cases hempty : (instanceModifyArgs inst (instanceApiArgs q)).isEmpty
    · rw [if_pos hempty,
        instanceTagPhase_eq q gw _ _ inst _ _ (some tl) hlist hrem hadd]
      exact ⟨(hconc noInstanceCalls).1, fun ts hts => (hconc noInstanceCalls).2.1 ts hts,
        fun hts => ((hconc noInstanceCalls).2.2 hts).trans rfl⟩
    · rcases hcase with h0 | hr
      · exact absurd (by rw [h0]; rfl) hempty
      · rw [if_neg hempty]
        split
        · rw [instanceTagPhase_eq q gw _ _ inst _ _ (some tl) hlist hrem hadd]
          refine ⟨(hconc _).1, fun ts hts => (hconc _).2.1 ts hts,
            fun hts => ((hconc _).2.2 hts).trans rfl⟩
        · next e heq =>
          rw [hr] at heq
          cases heq
  · intro p cluster ts hts
    have hmem : ("Tags", Val.tags ts) ∈ clusterApiArgs p := by
      unfold clusterApiArgs
      refine List.mem_append_right _ ?_
      rw [hts]
      simp [optEntry]
    rw [mem_clusterModifyArgs_iff]
    constructor
    · rintro ⟨-, hpred⟩
      rw [if_neg (by decide)] at hpred
      exact of_decide_eq_true hpred
    · intro hne
      exact ⟨hmem, by rw [if_neg (by decide)]; exact decide_eq_true hne⟩

def qTags : InstanceParams := { qBase with tags := some [("Env", "prod")] }

def gwTagsW : InstanceGateway :=
  { gwInstanceOk with
    describeResp := .ok (some [iBase])
    listTagsResp := .ok (some [("Old", "v")]) }

/-- Witness for instance_tags_reconciled_unconditionally at a concrete input:
current tag Old is removed and desired tag Env is applied although neither
changed relative to the other. -/
theorem instance_tags_reconciled_unconditionally_witness :
    (instanceReconcile qTags gwTagsW).calls.removeTagsCall =
      some ("arn:i1", ["Old"]) ∧
    (instanceReconcile qTags gwTagsW).calls.addTagsCall =
      some ("arn:i1", [("Env", "prod")]) := by
  have h := instance_tags_reconciled_unconditionally.1 qTags gwTagsW iBase
    [("Old", "v")] "m" rfl rfl rfl rfl (Or.inl (by decide))
  exact ⟨h.1.trans (by decide), h.2.1 [("Env", "prod")] rfl⟩

/-! ## C10: attributes absent from the fetched mapping -/

/-- C10: any desired attribute other than the two specially-handled ones whose
key is entirely absent from the fetched instance's attribute mapping is
unconditionally included in the MutationSet, and consequently a modify call
(carrying that MutationSet) is issued on the invocation. -/
theorem instance_absent_attr_always_modified (q : InstanceParams) (inst : Instance)
    (gw : InstanceGateway) (opt : String) (val : Val)
    (hmem : (opt, val) ∈ instanceApiArgs q)
    (hpg : opt ≠ "DBParameterGroupName") (hpi : opt ≠ "EnablePerformanceInsights")
    (habs : dlookup opt inst.attrs = none)
    (hdesc : gw.describeResp = .ok (some [inst])) :
    (opt, val) ∈ instanceModifyArgs inst (instanceApiArgs q) ∧
    (instanceReconcile q gw).calls.modifyCall =
      some (q.instance_id, q.apply_immediately,
        instanceModifyArgs inst (instanceApiArgs q)) := by
  have hmem2 : (opt, val) ∈ instanceModifyArgs inst (instanceApiArgs q) := by
    refine List.mem_filter.mpr ⟨hmem, ?_⟩
    show (if (opt, val).1 = "DBParameterGroupName" then pgDiffers inst (opt, val).2
      else if (opt, val).1 = "EnablePerformanceInsights" then piDiffers inst (opt, val).2
      else decide (dlookup (opt, val).1 inst.attrs ≠ some (opt, val).2)) = true
    rw [if_neg hpg, if_neg hpi]
    exact decide_eq_true (by rw [habs]; exact fun h => Option.noConfusion h)
  refine ⟨hmem2, ?_⟩
  rw [instanceReconcile_found q gw inst hdesc]
  have hempty : ¬ (instanceModifyArgs inst (instanceApiArgs q)).isEmpty = true := by
    intro hIsE
    rw [List.isEmpty_iff.mp hIsE] at hmem2
    exact List.not_mem_nil _ hmem2
  rw [if_neg hempty]
  split
  · exact (instanceTagPhase_modifyCall q gw _ _ inst _ _).trans rfl
  · next e heq => exact (instanceExceptHandler_modifyCall q gw e _ _ _).trans rfl

def qMultiAZ : InstanceParams := { qBase with multi_az := some true }

/-- Witness for instance_absent_attr_always_modified: MultiAZ is absent from
the fetched mapping, lands in the MutationSet, and a modify call carrying it
is issued. -/
theorem instance_absent_attr_always_modified_witness :
    ("MultiAZ", Val.bool true) ∈ instanceModifyArgs iBase (instanceApiArgs qMultiAZ) ∧
    (instanceReconcile qMultiAZ
        { gwInstanceOk with describeResp := .ok (some [iBase]) }).calls.modifyCall =
      some ("i1", false, [("MultiAZ", Val.bool true)]) := by
  have h := instance_absent_attr_always_modified qMultiAZ iBase
    { gwInstanceOk with describeResp := .ok (some [iBase]) } "MultiAZ" (Val.bool true)
    (by decide) (by decide) (by decide) (by decide) rfl
  exact ⟨h.1, h.2.trans (by decide)⟩
